import Mathlib

/-!
Verification development for the LithoMaker geometry-synthesis and
serialization pipeline (`src/mesh/meshgenerator.cpp`, `src/export/*`).

The C++ code is shallowly embedded: `float` arithmetic is modelled by exact
rational arithmetic (`ℚ`), `QList<QVector3D>` by `List Vec3`, and the
grayscale `QImage` by a width/height pair with a scanline-indexed pixel
accessor.  All definitions are executable and follow the source line by
line; OpenMP is compiled out in the embedding (the sequential `#else`
branch of `generateLithophane` is the one transcribed, which produces the
same multiset of triangles as the parallel branch).
-/

namespace LithoMaker

/-- Embedding of `QVector3D`: a 3-D point with exact rational coordinates. -/
structure Vec3 where
  x : ℚ
  y : ℚ
  z : ℚ
deriving DecidableEq, Repr

/-- Embedding of the grayscale input image (`QImage`, `Format_Grayscale8`):
`pixel x sy` is the 8-bit sample at column `x` of scanline `sy`, row-major
with origin at the top-left. -/
structure Image where
  width : ℕ
  height : ℕ
  pixel : ℕ → ℕ → ℕ

/-- Embedding of `MeshConfig` (meshgenerator.h). -/
structure MeshConfig where
  minThickness : ℚ
  totalThickness : ℚ
  frameBorder : ℚ
  width : ℚ
  frameSlopeFactor : ℚ
  enableStabilizers : Bool
  permanentStabilizers : Bool
  stabilizerThreshold : ℚ
  stabilizerHeightFactor : ℚ
  enableHangers : Bool
  hangerCount : ℕ
  enableSegmentation : Bool
  backsideSegments : ℕ
  frameSegments : ℕ
deriving DecidableEq, Repr

/-- `m_depthFactor = (totalThickness - minThickness) / 255.0f`. -/
def depthFactor (c : MeshConfig) : ℚ := (c.totalThickness - c.minThickness) / 255

/-- `m_widthFactor = (width - border * 2) / image.width()`. -/
def widthFactor (c : MeshConfig) (img : Image) : ℚ :=
  (c.width - c.frameBorder * 2) / (img.width : ℚ)

/-- `totalHeight = (border * 2) + (image.height() * widthFactor)`. -/
def totalHeight (c : MeshConfig) (img : Image) : ℚ :=
  c.frameBorder * 2 + (img.height : ℚ) * widthFactor c img

/-- `MeshGenerator::scaleVertex`: maps a grid coordinate and a relief depth
to model space. -/
def scaleVertex (c : MeshConfig) (img : Image) (x y z : ℚ) : Vec3 :=
  ⟨x * widthFactor c img + c.frameBorder, y * widthFactor c img + c.frameBorder, z⟩

/-- Entry `(x, y)` of the depth buffer filled at the start of
`generateLithophane`: the sample is read from scanline `height - 1 - y`
(bottom-up) and scaled by the depth factor
(`targetRow[x] = sourceRow[x] * m_depthFactor` with
`sourceRow = image.constScanLine(height - 1 - y)`). -/
def depthAt (c : MeshConfig) (img : Image) (x y : ℕ) : ℚ :=
  (img.pixel x (img.height - 1 - y) : ℚ) * depthFactor c

/-- The base plane `minThickness = -m_config.minThickness` used by the
tessellator and the backside. -/
def baseZ (c : MeshConfig) : ℚ := -c.minThickness

/-- "Close left side" triangles of one row of `generateLithophane`. -/
def leftWall (c : MeshConfig) (img : Image) (y : ℕ) : List Vec3 :=
  [scaleVertex c img 0 y (baseZ c),
   scaleVertex c img 0 y (depthAt c img 0 y),
   scaleVertex c img 0 (y + 1) (depthAt c img 0 (y + 1)),
   scaleVertex c img 0 (y + 1) (depthAt c img 0 (y + 1)),
   scaleVertex c img 0 (y + 1) (baseZ c),
   scaleVertex c img 0 y (baseZ c)]

/-- "Close top" triangles, emitted only from the `y = 0` iteration. -/
def topClose (c : MeshConfig) (img : Image) (x : ℕ) : List Vec3 :=
  [scaleVertex c img (x + 1) 0 (depthAt c img (x + 1) 0),
   scaleVertex c img x 0 (depthAt c img x 0),
   scaleVertex c img x 0 (baseZ c),
   scaleVertex c img x 0 (baseZ c),
   scaleVertex c img (x + 1) 0 (baseZ c),
   scaleVertex c img (x + 1) 0 (depthAt c img (x + 1) 0)]

/-- "Close bottom" triangles, emitted only from the `y = 0` iteration. -/
def bottomClose (c : MeshConfig) (img : Image) (x : ℕ) : List Vec3 :=
  [scaleVertex c img x (img.height - 1) (baseZ c),
   scaleVertex c img x (img.height - 1) (depthAt c img x (img.height - 1)),
   scaleVertex c img (x + 1) (img.height - 1) (depthAt c img (x + 1) (img.height - 1)),
   scaleVertex c img (x + 1) (img.height - 1) (depthAt c img (x + 1) (img.height - 1)),
   scaleVertex c img (x + 1) (img.height - 1) (baseZ c),
   scaleVertex c img x (img.height - 1) (baseZ c)]

/-- "The lithophane heightmap - two triangles per pixel". -/
def surfTris (c : MeshConfig) (img : Image) (x y : ℕ) : List Vec3 :=
  [scaleVertex c img x y (depthAt c img x y),
   scaleVertex c img (x + 1) (y + 1) (depthAt c img (x + 1) (y + 1)),
   scaleVertex c img x (y + 1) (depthAt c img x (y + 1)),
   scaleVertex c img x y (depthAt c img x y),
   scaleVertex c img (x + 1) y (depthAt c img (x + 1) y),
   scaleVertex c img (x + 1) (y + 1) (depthAt c img (x + 1) (y + 1))]

/-- "Close right side" triangles of one row. -/
def rightWall (c : MeshConfig) (img : Image) (y : ℕ) : List Vec3 :=
  [scaleVertex c img (img.width - 1) (y + 1) (depthAt c img (img.width - 1) (y + 1)),
   scaleVertex c img (img.width - 1) y (depthAt c img (img.width - 1) y),
   scaleVertex c img (img.width - 1) y (baseZ c),
   scaleVertex c img (img.width - 1) y (baseZ c),
   scaleVertex c img (img.width - 1) (y + 1) (baseZ c),
   scaleVertex c img (img.width - 1) (y + 1) (depthAt c img (img.width - 1) (y + 1))]

/-- Body of the inner `x` loop of `generateLithophane` for cell `(x, y)`:
the top/bottom caps are emitted only when `y = 0`, followed by the two
surface triangles of the cell. -/
def lithoCell (c : MeshConfig) (img : Image) (y x : ℕ) : List Vec3 :=
  (if y = 0 then topClose c img x ++ bottomClose c img x else []) ++ surfTris c img x y

/-- Body of the outer `y` loop of `generateLithophane`. -/
def lithoRow (c : MeshConfig) (img : Image) (y : ℕ) : List Vec3 :=
  leftWall c img y ++ (List.range (img.width - 1)).flatMap (lithoCell c img y) ++
    rightWall c img y

/-- `MeshGenerator::generateLithophane` (sequential branch): rows
`y ∈ [0, height - 2]` in order. -/
def generateLithophane (c : MeshConfig) (img : Image) : List Vec3 :=
  (List.range (img.height - 1)).flatMap (lithoRow c img)

/-- `MeshGenerator::generateBackside`: flat two-triangle quad at the base
plane. -/
def generateBackside (c : MeshConfig) (img : Image) : List Vec3 :=
  [scaleVertex c img 0 (img.height - 1) (baseZ c),
   scaleVertex c img (img.width - 1) (img.height - 1) (baseZ c),
   scaleVertex c img 0 0 (baseZ c),
   scaleVertex c img (img.width - 1) (img.height - 1) (baseZ c),
   scaleVertex c img (img.width - 1) 0 (baseZ c),
   scaleVertex c img 0 0 (baseZ c)]

/-- `MeshGenerator::generateSegmentedBackside` is a stub that falls back to
the flat backside. -/
def generateSegmentedBackside (c : MeshConfig) (img : Image) : List Vec3 :=
  generateBackside c img

/-- First third of `MeshGenerator::generateFrame`'s appends, with the
function's local variables (`depth`, `frameSlope`, `border`) as
parameters. -/
def frameVertsA (width height minThickness depth frameSlope border : ℚ) : List Vec3 :=
  [ -- Bottom face
   ⟨width, height, -minThickness⟩, ⟨0, height, -minThickness⟩, ⟨0, height, depth⟩,
   ⟨width, height, -minThickness⟩, ⟨0, height, depth⟩, ⟨width, height, depth⟩,
   -- Inner slope
   ⟨width - border - frameSlope, border + frameSlope, 0⟩,
   ⟨width - border - frameSlope, height - border - frameSlope, 0⟩,
   ⟨border + frameSlope, height - border - frameSlope, 0⟩,
   ⟨width - border - frameSlope, border + frameSlope, 0⟩,
   ⟨border + frameSlope, height - border - frameSlope, 0⟩,
   ⟨border + frameSlope, border + frameSlope, 0⟩,
   -- Left face
   ⟨0, 0, depth⟩, ⟨0, height, depth⟩, ⟨0, height, -minThickness⟩,
   ⟨0, 0, depth⟩, ⟨0, height, -minThickness⟩, ⟨0, 0, -minThickness⟩,
   -- Top face
   ⟨0, 0, -minThickness⟩, ⟨width, 0, -minThickness⟩, ⟨width, 0, depth⟩,
   ⟨0, 0, -minThickness⟩, ⟨width, 0, depth⟩, ⟨0, 0, depth⟩,
   -- Right face
   ⟨width, 0, -minThickness⟩, ⟨width, height, -minThickness⟩, ⟨width, height, depth⟩,
   ⟨width, 0, -minThickness⟩, ⟨width, height, depth⟩, ⟨width, 0, depth⟩]

/-- Second third of `MeshGenerator::generateFrame`'s appends. -/
def frameVertsB (width height minThickness depth frameSlope border : ℚ) : List Vec3 :=
  [ -- Back face (outer)
   ⟨0, 0, -minThickness⟩, ⟨0, height, -minThickness⟩, ⟨width, height, -minThickness⟩,
   ⟨0, 0, -minThickness⟩, ⟨width, height, -minThickness⟩, ⟨width, 0, -minThickness⟩,
   -- Left inner
   ⟨border, border, depth⟩, ⟨border, height - border, depth⟩, ⟨0, height, depth⟩,
   ⟨border, border, depth⟩, ⟨0, height, depth⟩, ⟨0, 0, depth⟩,
   -- Right inner
   ⟨width - border, height - border, depth⟩, ⟨width - border, border, depth⟩,
   ⟨width, 0, depth⟩,
   ⟨width - border, height - border, depth⟩, ⟨width, 0, depth⟩, ⟨width, height, depth⟩,
   -- Bottom inner
   ⟨border, height - border, depth⟩, ⟨width - border, height - border, depth⟩,
   ⟨width, height, depth⟩,
   ⟨border, height - border, depth⟩, ⟨width, height, depth⟩, ⟨0, height, depth⟩,
   -- Top inner
   ⟨width - border, border, depth⟩, ⟨border, border, depth⟩, ⟨0, 0, depth⟩,
   ⟨width - border, border, depth⟩, ⟨0, 0, depth⟩, ⟨width, 0, depth⟩]

/-- Last third of `MeshGenerator::generateFrame`'s appends: the four slope
quads connecting the frame front face to the inner shelf at `z = 0`. -/
def frameVertsC (width height minThickness depth frameSlope border : ℚ) : List Vec3 :=
  [ -- Left slope
   ⟨border + frameSlope, border + frameSlope, 0⟩,
   ⟨border + frameSlope, height - border - frameSlope, 0⟩,
   ⟨border, height - border, depth⟩,
   ⟨border + frameSlope, border + frameSlope, 0⟩,
   ⟨border, height - border, depth⟩, ⟨border, border, depth⟩,
   -- Right slope
   ⟨width - border - frameSlope, height - border - frameSlope, 0⟩,
   ⟨width - border - frameSlope, border + frameSlope, 0⟩,
   ⟨width - border, border, depth⟩,
   ⟨width - border - frameSlope, height - border - frameSlope, 0⟩,
   ⟨width - border, border, depth⟩, ⟨width - border, height - border, depth⟩,
   -- Bottom slope
   ⟨border + frameSlope, height - border - frameSlope, 0⟩,
   ⟨width - border - frameSlope, height - border - frameSlope, 0⟩,
   ⟨width - border, height - border, depth⟩,
   ⟨border + frameSlope, height - border - frameSlope, 0⟩,
   ⟨width - border, height - border, depth⟩, ⟨border, height - border, depth⟩,
   -- Top slope
   ⟨width - border - frameSlope, border + frameSlope, 0⟩,
   ⟨border + frameSlope, border + frameSlope, 0⟩,
   ⟨border, border, depth⟩,
   ⟨width - border - frameSlope, border + frameSlope, 0⟩,
   ⟨border, border, depth⟩, ⟨width - border, border, depth⟩]

/-- `MeshGenerator::generateFrame`: computes `depth`, `frameSlope` and
`border` from the configuration and emits the fixed frame quads. -/
def generateFrame (c : MeshConfig) (width height : ℚ) : List Vec3 :=
  frameVertsA width height c.minThickness (c.totalThickness - c.minThickness)
      ((c.totalThickness - c.minThickness) * c.frameSlopeFactor) c.frameBorder ++
    frameVertsB width height c.minThickness (c.totalThickness - c.minThickness)
      ((c.totalThickness - c.minThickness) * c.frameSlopeFactor) c.frameBorder ++
    frameVertsC width height c.minThickness (c.totalThickness - c.minThickness)
      ((c.totalThickness - c.minThickness) * c.frameSlopeFactor) c.frameBorder

/-- Front half (16 triangles around `z = totalThickness - minThickness`) of
`MeshGenerator::addSingleStabilizer`, with the locals as parameters:
`z` is the front attachment plane, `h` the foot height. -/
def stabFrontVerts (x stabWidth h depth z zDelta : ℚ) : List Vec3 :=
  [ -- Front face - left side
   ⟨x, 0, z + 1 - zDelta⟩, ⟨x, 0, z + depth⟩, ⟨x, h, z + 3⟩,
   ⟨x, h, z + 3⟩, ⟨x, h, z + 1 - zDelta⟩, ⟨x, h - 1, z + 1 - zDelta⟩,
   ⟨x, h, z + 3⟩, ⟨x, h - 1, z + 1 - zDelta⟩, ⟨x, 0, z + 1 - zDelta⟩,
   -- Front face - right side
   ⟨x + stabWidth, h, z + 3⟩, ⟨x + stabWidth, 0, z + depth⟩,
   ⟨x + stabWidth, 0, z + 1 - zDelta⟩,
   ⟨x + stabWidth, h - 1, z + 1 - zDelta⟩, ⟨x + stabWidth, h, z + 1 - zDelta⟩,
   ⟨x + stabWidth, h, z + 3⟩,
   ⟨x + stabWidth, 0, z + 1 - zDelta⟩, ⟨x + stabWidth, h - 1, z + 1 - zDelta⟩,
   ⟨x + stabWidth, h, z + 3⟩,
   -- Top faces
   ⟨x + 1, h, z + 1 - zDelta⟩, ⟨x, h, z + 1 - zDelta⟩, ⟨x, h, z + 3⟩,
   ⟨x, h, z + 3⟩, ⟨x + stabWidth, h, z + 3⟩, ⟨x + stabWidth, h, z + 1 - zDelta⟩,
   ⟨x + stabWidth - 1, h, z + 1 - zDelta⟩, ⟨x + 1, h, z + 1 - zDelta⟩, ⟨x, h, z + 3⟩,
   ⟨x, h, z + 3⟩, ⟨x + stabWidth, h, z + 1 - zDelta⟩,
   ⟨x + stabWidth - 1, h, z + 1 - zDelta⟩,
   -- Bottom face
   ⟨x, 0, z + depth⟩, ⟨x, 0, z + 1 - zDelta⟩, ⟨x + stabWidth, 0, z + 1 - zDelta⟩,
   ⟨x, 0, z + depth⟩, ⟨x + stabWidth, 0, z + 1 - zDelta⟩, ⟨x + stabWidth, 0, z + depth⟩,
   -- Sloped front face (triangular)
   ⟨x, h, z + 3⟩, ⟨x, 0, z + depth⟩, ⟨x + stabWidth, 0, z + depth⟩,
   ⟨x, h, z + 3⟩, ⟨x + stabWidth, 0, z + depth⟩, ⟨x + stabWidth, h, z + 3⟩,
   -- Inner connection faces
   ⟨x + 1, h - 1, z + 1 - zDelta⟩, ⟨x + 1, h, z + 1 - zDelta⟩,
   ⟨x + stabWidth - 1, h, z + 1 - zDelta⟩,
   ⟨x + 1, h - 1, z + 1 - zDelta⟩, ⟨x + stabWidth - 1, h, z + 1 - zDelta⟩,
   ⟨x + stabWidth - 1, h - 1, z + 1 - zDelta⟩]

/-- Back half (16 triangles around `z2 = -minThickness`) of
`MeshGenerator::addSingleStabilizer`. -/
def stabBackVerts (x stabWidth h depth z2 zDelta : ℚ) : List Vec3 :=
  [ -- Back face - right side
   ⟨x + stabWidth, 0, z2 - 1 + zDelta⟩, ⟨x + stabWidth, 0, z2 - depth⟩,
   ⟨x + stabWidth, h, z2 - 3⟩,
   ⟨x + stabWidth, h, z2 - 3⟩, ⟨x + stabWidth, h, z2 - 1 + zDelta⟩,
   ⟨x + stabWidth, h - 1, z2 - 1 + zDelta⟩,
   ⟨x + stabWidth, h, z2 - 3⟩, ⟨x + stabWidth, h - 1, z2 - 1 + zDelta⟩,
   ⟨x + stabWidth, 0, z2 - 1 + zDelta⟩,
   -- Back face - left side
   ⟨x, h, z2 - 3⟩, ⟨x, 0, z2 - depth⟩, ⟨x, 0, z2 - 1 + zDelta⟩,
   ⟨x, h - 1, z2 - 1 + zDelta⟩, ⟨x, h, z2 - 1 + zDelta⟩, ⟨x, h, z2 - 3⟩,
   ⟨x, 0, z2 - 1 + zDelta⟩, ⟨x, h - 1, z2 - 1 + zDelta⟩, ⟨x, h, z2 - 3⟩,
   -- Back top faces
   ⟨x + stabWidth - 1, h, z2 - 1 + zDelta⟩, ⟨x + stabWidth, h, z2 - 1 + zDelta⟩,
   ⟨x + stabWidth, h, z2 - 3⟩,
   ⟨x + stabWidth, h, z2 - 3⟩, ⟨x, h, z2 - 3⟩, ⟨x, h, z2 - 1 + zDelta⟩,
   ⟨x + 1, h, z2 - 1 + zDelta⟩, ⟨x + stabWidth - 1, h, z2 - 1 + zDelta⟩,
   ⟨x + stabWidth, h, z2 - 3⟩,
   ⟨x + stabWidth, h, z2 - 3⟩, ⟨x, h, z2 - 1 + zDelta⟩, ⟨x + 1, h, z2 - 1 + zDelta⟩,
   -- Back bottom face
   ⟨x + stabWidth, 0, z2 - depth⟩, ⟨x + stabWidth, 0, z2 - 1 + zDelta⟩,
   ⟨x, 0, z2 - 1 + zDelta⟩,
   ⟨x + stabWidth, 0, z2 - depth⟩, ⟨x, 0, z2 - 1 + zDelta⟩, ⟨x, 0, z2 - depth⟩,
   -- Back sloped face
   ⟨x + stabWidth, h, z2 - 3⟩, ⟨x + stabWidth, 0, z2 - depth⟩, ⟨x, 0, z2 - depth⟩,
   ⟨x + stabWidth, h, z2 - 3⟩, ⟨x, 0, z2 - depth⟩, ⟨x, h, z2 - 3⟩,
   -- Back inner faces
   ⟨x + stabWidth - 1, h - 1, z2 - 1 + zDelta⟩, ⟨x + stabWidth - 1, h, z2 - 1 + zDelta⟩,
   ⟨x + 1, h, z2 - 1 + zDelta⟩,
   ⟨x + stabWidth - 1, h - 1, z2 - 1 + zDelta⟩, ⟨x + 1, h, z2 - 1 + zDelta⟩,
   ⟨x + 1, h - 1, z2 - 1 + zDelta⟩]

/-- `MeshGenerator::addSingleStabilizer`: one breakaway foot, 32 triangles
(16 glued to the front face around `z = totalThickness - minThickness`,
16 to the back face around `-minThickness`), with
`stabWidth = min(m_border, 4.0f)` recomputed from the configuration. -/
def addSingleStabilizer (c : MeshConfig)
    (x stabHeight depth minThickness totalThickness zDelta : ℚ) : List Vec3 :=
  stabFrontVerts x (min c.frameBorder 4) stabHeight depth
      (totalThickness - minThickness) zDelta ++
    stabBackVerts x (min c.frameBorder 4) stabHeight depth (-minThickness) zDelta

/-- `MeshGenerator::generateStabilizers`: the two feet, at `x = 0` and at
`x = width - stabWidth` with `stabWidth = min(frameBorder, 4 mm)`. -/
def generateStabilizers (c : MeshConfig) (width height : ℚ) : List Vec3 :=
  addSingleStabilizer c 0 (height * c.stabilizerHeightFactor)
      (height * c.stabilizerHeightFactor * (1 / 2)) c.minThickness c.totalThickness
      (if c.permanentStabilizers then 1 else 0) ++
    addSingleStabilizer c (width - min c.frameBorder 4)
      (height * c.stabilizerHeightFactor)
      (height * c.stabilizerHeightFactor * (1 / 2)) c.minThickness c.totalThickness
      (if c.permanentStabilizers then 1 else 0)

/-- One hanger loop of `MeshGenerator::generateHangers`, at horizontal
offset `x`, attached at `y = height`: 16 triangles. -/
def hangerAt (x height : ℚ) : List Vec3 :=
  [ -- Front face of hanger
   ⟨x + 3, height, 0⟩, ⟨x, height, 0⟩, ⟨x + 3, height + 3, 0⟩,
   ⟨x + 3, height + 3, 0⟩, ⟨x + 6, height + 3, 0⟩, ⟨x + 9, height, 0⟩,
   -- Loop hole
   ⟨x + 9, height, 0⟩, ⟨x + 6, height, 0⟩, ⟨x + 5, height + 1, 0⟩,
   ⟨x + 4, height + 1, 0⟩, ⟨x + 3, height, 0⟩, ⟨x + 3, height + 3, 0⟩,
   ⟨x + 3, height + 3, 0⟩, ⟨x + 9, height, 0⟩, ⟨x + 5, height + 1, 0⟩,
   ⟨x + 3, height + 3, 0⟩, ⟨x + 5, height + 1, 0⟩, ⟨x + 4, height + 1, 0⟩,
   -- Back face of hanger (z = 2)
   ⟨x + 3, height + 3, 2⟩, ⟨x, height, 2⟩, ⟨x + 3, height, 2⟩,
   ⟨x + 3, height + 3, 2⟩, ⟨x + 3, height, 2⟩, ⟨x + 4, height + 1, 2⟩,
   ⟨x + 9, height, 2⟩, ⟨x + 6, height + 3, 2⟩, ⟨x + 3, height + 3, 2⟩,
   ⟨x + 5, height + 1, 2⟩, ⟨x + 6, height, 2⟩, ⟨x + 9, height, 2⟩,
   ⟨x + 3, height + 3, 2⟩, ⟨x + 4, height + 1, 2⟩, ⟨x + 5, height + 1, 2⟩,
   ⟨x + 5, height + 1, 2⟩, ⟨x + 9, height, 2⟩, ⟨x + 3, height + 3, 2⟩,
   -- Inner loop sides
   ⟨x + 5, height + 1, 0⟩, ⟨x + 6, height, 0⟩, ⟨x + 6, height, 2⟩,
   ⟨x + 5, height + 1, 0⟩, ⟨x + 6, height, 2⟩, ⟨x + 5, height + 1, 2⟩,
   -- Top arch
   ⟨x + 6, height + 3, 0⟩, ⟨x + 3, height + 3, 0⟩, ⟨x + 3, height + 3, 2⟩,
   ⟨x + 6, height + 3, 0⟩, ⟨x + 3, height + 3, 2⟩, ⟨x + 6, height + 3, 2⟩]

/-- `MeshGenerator::generateHangers`: `hangerCount` loops, the `i`-th at
`x = xDelta - 4.5 + i * 2 * xDelta` with `xDelta = (width / count) / 2`. -/
def generateHangers (c : MeshConfig) (width height : ℚ) : List Vec3 :=
  (List.range c.hangerCount).flatMap fun i =>
    hangerAt (width / (c.hangerCount : ℚ) / 2 - 9 / 2 +
      (i : ℚ) * (width / (c.hangerCount : ℚ) / 2 * 2)) height

/-- `MeshGenerator::generate`: the full pipeline in its fixed order —
lithophane surface, backside (the segmented branch falls back to the flat
quad), frame, then conditionally stabilizers and hangers. -/
def generate (c : MeshConfig) (img : Image) : List Vec3 :=
  generateLithophane c img ++
    (if c.enableSegmentation = true ∧ 1 < c.backsideSegments then
       generateSegmentedBackside c img
     else generateBackside c img) ++
    generateFrame c c.width (totalHeight c img) ++
    (if c.enableStabilizers = true ∧ c.stabilizerThreshold < totalHeight c img then
       generateStabilizers c c.width (totalHeight c img)
     else []) ++
    (if c.enableHangers = true then generateHangers c c.width (totalHeight c img)
     else [])

/-- The configuration of the spec's concrete scenario (§8): defaults with
stabilizers and hangers disabled. -/
def cfgScenario : MeshConfig :=
  ⟨4 / 5, 4, 3, 50, 3 / 4, false, false, 60, 3 / 20, false, 2, false, 1, 1⟩

/-- Default configuration from `meshgenerator.h` (width 200 mm). -/
def cfgDefault : MeshConfig :=
  ⟨4 / 5, 4, 3, 200, 3 / 4, true, false, 60, 3 / 20, true, 2, false, 1, 1⟩

/-- A 2×2 all-mid-gray image. -/
def img22 : Image := ⟨2, 2, fun _ _ => 128⟩

/-- A 2×2 all-white image. -/
def imgWhite : Image := ⟨2, 2, fun _ _ => 255⟩

/-- The 4×4 all-128 grid of the spec's concrete scenario. -/
def img44 : Image := ⟨4, 4, fun _ _ => 128⟩

/-! ### Exporter data model -/

/-- Embedding of `ExportResult` (exporter.h): success flag, human-readable
error (empty on success), bytes written. -/
structure ExportResult where
  success : Bool
  errorMessage : String
  bytesWritten : ℕ
deriving DecidableEq, Repr

/-- One field of the binary STL byte stream.  A `f32` cell is a four-byte
IEEE float32 slot; in the embedding it carries the exact rational value
written into it (float quantization is below the format's stated 1e-4 mm
tolerance and is not modelled). -/
inductive StlCell where
  | b8 (v : ℕ)
  | u16 (v : ℕ)
  | u32 (v : ℕ)
  | f32 (v : ℚ)
deriving DecidableEq, Repr

/-- Size in bytes of one cell. -/
def cellSize : StlCell → ℕ
  | .b8 _ => 1
  | .u16 _ => 2
  | .u32 _ => 4
  | .f32 _ => 4

/-- Total byte size of a cell stream. -/
def byteSize (cells : List StlCell) : ℕ := (cells.map cellSize).sum

/-- Realization of a cell as bytes, little-endian for the multi-byte
integer fields (the x86 in-memory layout the exporter `file.write`s); the
four-byte float32 payload is supplied by an encoding function `fenc`. -/
def cellBytes (fenc : ℚ → List ℕ) : StlCell → List ℕ
  | .b8 v => [v % 256]
  | .u16 v => [v % 256, v / 256 % 256]
  | .u32 v => [v % 256, v / 256 % 256, v / 65536 % 256, v / 16777216 % 256]
  | .f32 q => fenc q

/-- Byte stream of a cell stream under a float32 encoder. -/
def bytesOf (fenc : ℚ → List ℕ) (cells : List StlCell) : List ℕ :=
  cells.flatMap (cellBytes fenc)

/-- The 80-byte zero-padded header written by `StlExporter::exportBinary`
(`memset(header, 0, 80)` then `strncpy(header, "LithoMaker Export", 79)`). -/
def stlHeaderCells : List StlCell :=
  ("LithoMaker Export".data.map fun ch => StlCell.b8 ch.toNat) ++
    List.replicate 63 (StlCell.b8 0)

/-- Per-triangle records of `StlExporter::exportBinary`: a normal written
as three float32 zeros (normals are not computed), the three vertices as
float32 x,y,z in buffer order, and a zero `uint16` attribute byte count. -/
def stlTriCells : List Vec3 → List StlCell
  | a :: b :: c :: rest =>
      [.f32 0, .f32 0, .f32 0,
       .f32 a.x, .f32 a.y, .f32 a.z,
       .f32 b.x, .f32 b.y, .f32 b.z,
       .f32 c.x, .f32 c.y, .f32 c.z,
       .u16 0] ++ stlTriCells rest
  | _ => []

/-- Full cell stream of `StlExporter::exportBinary`: 80-byte header,
little-endian `uint32` triangle count, then the triangle records. -/
def stlBinaryCells (mesh : List Vec3) : List StlCell :=
  stlHeaderCells ++ [.u32 (mesh.length / 3)] ++ stlTriCells mesh

/-- Parser for the triangle records of a binary STL stream: checks the
zero normals and zero attribute counts and returns the vertices in file
order. -/
def parseStlTris : ℕ → List StlCell → Option (List Vec3)
  | 0, [] => some []
  | n + 1, .f32 n1 :: .f32 n2 :: .f32 n3 ::
      .f32 ax :: .f32 ay :: .f32 az ::
      .f32 bx :: .f32 bh :: .f32 bz ::
      .f32 cx :: .f32 cy :: .f32 cz :: .u16 attr :: rest =>
      if n1 = 0 ∧ n2 = 0 ∧ n3 = 0 ∧ attr = 0 then
        (parseStlTris n rest).map
          (fun vs => ⟨ax, ay, az⟩ :: ⟨bx, bh, bz⟩ :: ⟨cx, cy, cz⟩ :: vs)
      else none
  | _, _ => none

/-- Parser for a binary STL cell stream: an 80-byte header, the `uint32`
triangle count, then exactly that many triangle records. -/
def parseStlBinary (cells : List StlCell) : Option (ℕ × List Vec3) :=
  if (cells.take 80).length = 80 ∧
      (cells.take 80).all (fun cl => match cl with | .b8 _ => true | _ => false) then
    match cells.drop 80 with
    | .u32 n :: rest => (parseStlTris n rest).map (fun vs => (n, vs))
    | _ => none
  else none

/-- `mesh.size() % 3` guard plus serialization of
`StlExporter::exportMesh` in binary mode; the second component is the file
content, `none` when nothing is written.  `bytesWritten` is the byte size
of the produced stream (`file.size()`). -/
def stlBinaryExport (mesh : List Vec3) : ExportResult × Option (List StlCell) :=
  if mesh = [] then (⟨false, "Empty mesh", 0⟩, none)
  else if ¬ mesh.length % 3 = 0 then
    (⟨false, "Invalid mesh: vertex count not divisible by 3", 0⟩, none)
  else (⟨true, "", byteSize (stlBinaryCells mesh)⟩, some (stlBinaryCells mesh))

/-- Grouping of the flat vertex buffer into consecutive triples, as the
exporters' `for (i; i += 3)` loops read it. -/
def triples {α : Type} : List α → List (α × α × α)
  | a :: b :: c :: rest => (a, b, c) :: triples rest
  | _ => []

/-- Structured content of an ASCII STL file: the facet list
(`facet normal 0 0 0` / `outer loop` / three `vertex` lines / `endloop` /
`endfacet` per triangle); the text rendering itself is not modelled. -/
structure AsciiStlContent where
  facets : List (Vec3 × Vec3 × Vec3)
deriving DecidableEq, Repr

/-- `StlExporter::exportMesh` in ASCII mode.  The reported size is the
line count of the produced text (`solid`/`endsolid` plus seven lines per
facet), standing in for the byte count of the unmodelled text rendering. -/
def stlAsciiExport (mesh : List Vec3) : ExportResult × Option AsciiStlContent :=
  if mesh = [] then (⟨false, "Empty mesh", 0⟩, none)
  else if ¬ mesh.length % 3 = 0 then
    (⟨false, "Invalid mesh: vertex count not divisible by 3", 0⟩, none)
  else (⟨true, "", 2 + 7 * (mesh.length / 3)⟩, some ⟨triples mesh⟩)

/-- The 6-decimal fixed-point string key of the OBJ/3MF vertex dedup
(`QString("%1_%2_%3").arg(coord, 0, 'f', 6)`), modelled per coordinate as
the pair of the sign flag and the rounded integer `⌊q·10⁶ + ½⌋`.  The
`'f',6` formatting prepends the minus sign for every strictly negative
value, so a coordinate in `(-5e-7, 0)` prints `"-0.000000"` — a distinct
string key from `"0.000000"` — which the sign flag captures; within one
sign class two coordinates print the same 6-decimal digits exactly when
they round to the same integer. -/
def fix6 (q : ℚ) : Bool × ℤ := (decide (q < 0), ⌊q * 1000000 + 1 / 2⌋)

/-- Key of a vertex: the triple of its signed 6-decimal fixed-point
coordinate renderings. -/
def key6 (v : Vec3) : (Bool × ℤ) × (Bool × ℤ) × (Bool × ℤ) :=
  (fix6 v.x, fix6 v.y, fix6 v.z)

/-- Index of the first vertex in `uniq` whose key is `k` — the role of
`vertexMap.contains(key)` / `vertexMap[key]` in the source, where the map
stores the index of the first occurrence of each key. -/
def findKey (k : (Bool × ℤ) × (Bool × ℤ) × (Bool × ℤ)) : List Vec3 → Option ℕ
  | [] => none
  | u :: rest => if key6 u = k then some 0 else (findKey k rest).map (· + 1)

/-- The dedup loop shared by `ObjExporter::exportMesh` and
`ThreeMfExporter::generateModelXml`: walk the buffer, append each vertex
with an unseen key to `uniqueVertices`, and record for every buffer vertex
the 0-based index of the unique vertex carrying its key (the OBJ exporter
stores these indices 1-based). -/
def dedupGo : List Vec3 → List ℕ → List Vec3 → List Vec3 × List ℕ
  | uniq, idxs, [] => (uniq, idxs)
  | uniq, idxs, v :: rest =>
    match findKey (key6 v) uniq with
    | some j => dedupGo uniq (idxs ++ [j]) rest
    | none => dedupGo (uniq ++ [v]) (idxs ++ [uniq.length]) rest

/-- `uniqueVertices` and the per-buffer-vertex index list. -/
def dedup (mesh : List Vec3) : List Vec3 × List ℕ := dedupGo [] [] mesh

/-- Structured content of an OBJ file: the header triangle count comment,
the deduplicated `v` lines, and the 1-based `f` lines. -/
structure ObjContent where
  headerTriangles : ℕ
  verts : List Vec3
  faces : List (ℕ × ℕ × ℕ)
deriving DecidableEq, Repr

/-- Content produced by `ObjExporter::exportMesh` past the guards. -/
def objContent (mesh : List Vec3) : ObjContent :=
  ⟨mesh.length / 3, (dedup mesh).1, triples ((dedup mesh).2.map (· + 1))⟩

/-- `ObjExporter::exportMesh`: guards, then the deduplicated content.  The
reported size is the line count of the produced text (7 fixed lines plus
one per vertex and face), standing in for the unmodelled byte count. -/
def objExport (mesh : List Vec3) : ExportResult × Option ObjContent :=
  if mesh = [] then (⟨false, "Empty mesh", 0⟩, none)
  else if ¬ mesh.length % 3 = 0 then
    (⟨false, "Invalid mesh: vertex count not divisible by 3", 0⟩, none)
  else (⟨true, "",
          7 + (objContent mesh).verts.length + (objContent mesh).faces.length⟩,
        some (objContent mesh))

/-- Structured content of the `3D/3dmodel.model` part: deduplicated
vertices and 0-based triangle index triples. -/
structure ThreeMfModel where
  verts : List Vec3
  tris : List (ℕ × ℕ × ℕ)
deriving DecidableEq, Repr

/-- Content produced by `ThreeMfExporter::generateModelXml`. -/
def threeMfModelOf (mesh : List Vec3) : ThreeMfModel :=
  ⟨(dedup mesh).1, triples (dedup mesh).2⟩

/-- Outcome of the external archiving subprocess observed after
`process.start(...)` and `process.waitForFinished(30000)`. -/
inductive ZipOutcome where
  | finished (exitCode : ℕ) (produced : Bool) (archiveSize : ℕ)
  | failedToStart
  | timedOut
deriving DecidableEq, Repr

/-- `QProcess::exitCode()` as observed after the bounded wait: Qt returns
the exit code of the last process that finished, and `0` when no process
has finished — which is the case both when the archiver binary could not
be started (`failedToStart`) and when the 30-second wait elapsed with the
process still running (`timedOut`). -/
def zipExitCode : ZipOutcome → ℕ
  | .finished code _ _ => code
  | .failedToStart => 0
  | .timedOut => 0

/-- Whether the target `.3mf` archive file exists after the subprocess
step (`file.exists()`). -/
def zipProduced : ZipOutcome → Bool
  | .finished _ produced _ => produced
  | _ => false

/-- Size of the produced archive (`file.size()`), 0 when absent. -/
def zipArchiveSize : ZipOutcome → ℕ
  | .finished _ _ n => n
  | _ => 0

/-- Observable outcome of one `ThreeMfExporter::exportMesh` call: the
returned result, the `.3mf` content at the target path (`none` when no
file was produced), and whether the scratch directory was created and
removed. -/
structure ThreeMfRun where
  result : ExportResult
  file : Option ThreeMfModel
  scratchCreated : Bool
  scratchRemoved : Bool
deriving DecidableEq, Repr

/-- `ThreeMfExporter::exportMesh`: guard checks, scratch-directory
creation and package-member writes, the external archiving subprocess,
unconditional scratch cleanup (`QDir(tempDir).removeRecursively()` runs
before the success check), then `success = (process.exitCode() == 0)` and
on the success path `bytesWritten = file.exists() ? file.size() : 0`. -/
def threeMfExportRun (zip : ZipOutcome) (mesh : List Vec3) : ThreeMfRun :=
  if mesh = [] then ⟨⟨false, "Empty mesh", 0⟩, none, false, false⟩
  else if ¬ mesh.length % 3 = 0 then
    ⟨⟨false, "Invalid mesh: vertex count not divisible by 3", 0⟩, none, false, false⟩
  else if zipExitCode zip = 0 then
    ⟨⟨true, "", if zipProduced zip = true then zipArchiveSize zip else 0⟩,
     if zipProduced zip = true then some (threeMfModelOf mesh) else none,
     true, true⟩
  else ⟨⟨false, "Failed to create 3MF archive", 0⟩, none, true, true⟩

/-- A single valid triangle used as a concrete export input. -/
def demoTri : List Vec3 := [⟨0, 0, 0⟩, ⟨1, 0, 0⟩, ⟨0, 1, 0⟩]

/-- Two coincident triangles (the same three vertex positions twice),
exercising the vertex dedup. -/
def demoDupTris : List Vec3 :=
  [⟨0, 0, 0⟩, ⟨1, 0, 0⟩, ⟨0, 1, 0⟩, ⟨0, 0, 0⟩, ⟨1, 0, 0⟩, ⟨0, 1, 0⟩]

/-- A trivial four-byte-per-value float32 payload encoder, used to
instantiate byte-level statements at a concrete encoder. -/
def fencZero : ℚ → List ℕ := fun _ => [0, 0, 0, 0]

/-- Two triangles whose apexes sit at `x = -1e-7` and `x = 1e-7`: the two
apex positions agree to six decimal places numerically, but their
6-decimal fixed-point renderings are `"-0.000000"` and `"0.000000"`; no
other pair of vertices is within six decimals of each other. -/
def demoSignedZero : List Vec3 :=
  [⟨-1 / 10000000, 0, 0⟩, ⟨1, 0, 0⟩, ⟨0, 1, 0⟩,
   ⟨1 / 10000000, 0, 0⟩, ⟨2, 0, 0⟩, ⟨0, 2, 0⟩]

/-! ### Buffer-length accounting -/

lemma length_flatMap_const {α : Type} (f : ℕ → List α) (k : ℕ) (l : List ℕ)
    (h : ∀ x ∈ l, (f x).length = k) : (l.flatMap f).length = l.length * k := by
  induction l with
  | nil => simp
  | cons a t ih =>
    rw [List.flatMap_cons, List.length_append, h a (by simp),
      ih (fun x hx => h x (by simp [hx])), List.length_cons]
    ring

lemma lithoCell_length (c : MeshConfig) (img : Image) (y x : ℕ) :
    (lithoCell c img y x).length = if y = 0 then 18 else 6 := by
  by_cases h : y = 0 <;> simp [lithoCell, topClose, bottomClose, surfTris, h]

lemma lithoRow_length (c : MeshConfig) (img : Image) (y : ℕ) :
    (lithoRow c img y).length =
      12 + (img.width - 1) * (if y = 0 then 18 else 6) := by
  rw [lithoRow, List.length_append, List.length_append,
    length_flatMap_const _ _ _ (fun x _ => lithoCell_length c img y x),
    List.length_range]
  have h6l : (leftWall c img y).length = 6 := rfl
  have h6r : (rightWall c img y).length = 6 := rfl
  rw [h6l, h6r]
  generalize (img.width - 1) * (if y = 0 then 18 else 6) = m
  omega

lemma generateLithophane_length (c : MeshConfig) (img : Image)
    (hH : 2 ≤ img.height) :
    (generateLithophane c img).length =
      12 + 18 * (img.width - 1) + (img.height - 2) * (12 + 6 * (img.width - 1)) := by
  have h1 : img.height - 1 = (img.height - 2) + 1 := by omega
  rw [generateLithophane, h1, List.range_succ_eq_map, List.flatMap_cons,
    List.length_append]
  have h2 : ∀ x ∈ (List.range (img.height - 2)).map Nat.succ,
      (lithoRow c img x).length = 12 + (img.width - 1) * 6 := by
    intro x hx
    obtain ⟨y, _, rfl⟩ := List.mem_map.1 hx
    rw [lithoRow_length]
    simp
  rw [length_flatMap_const _ _ _ h2, List.length_map, List.length_range,
    lithoRow_length]
  norm_num
  ring

lemma generateBackside_length (c : MeshConfig) (img : Image) :
    (generateBackside c img).length = 6 := rfl

lemma generateFrame_length (c : MeshConfig) (w h : ℚ) :
    (generateFrame c w h).length = 84 := rfl

lemma generateStabilizers_length (c : MeshConfig) (w h : ℚ) :
    (generateStabilizers c w h).length = 192 := rfl

lemma hangerAt_length (x h : ℚ) : (hangerAt x h).length = 48 := rfl

lemma generateHangers_length (c : MeshConfig) (w h : ℚ) :
    (generateHangers c w h).length = c.hangerCount * 48 := by
  rw [generateHangers, length_flatMap_const _ 48 _ (fun i _ => hangerAt_length _ _),
    List.length_range]

lemma generate_length_formula (c : MeshConfig) (img : Image)
    (hH : 2 ≤ img.height) :
    (generate c img).length =
      12 + 18 * (img.width - 1) + (img.height - 2) * (12 + 6 * (img.width - 1)) + 90 +
        (if c.enableStabilizers = true ∧ c.stabilizerThreshold < totalHeight c img
         then 192 else 0) +
        (if c.enableHangers = true then c.hangerCount * 48 else 0) := by
  rw [generate, List.length_append, List.length_append, List.length_append,
    List.length_append, generateLithophane_length c img hH, generateFrame_length]
  have hback : (if c.enableSegmentation = true ∧ 1 < c.backsideSegments then
      generateSegmentedBackside c img else generateBackside c img).length = 6 := by
    split <;> rfl
  have hstab : (if c.enableStabilizers = true ∧
        c.stabilizerThreshold < totalHeight c img then
      generateStabilizers c c.width (totalHeight c img) else []).length =
      (if c.enableStabilizers = true ∧ c.stabilizerThreshold < totalHeight c img
       then 192 else 0) := by
    split <;> simp [generateStabilizers_length]
  have hhang : (if c.enableHangers = true then
      generateHangers c c.width (totalHeight c img) else []).length =
      (if c.enableHangers = true then c.hangerCount * 48 else 0) := by
    split <;> simp [generateHangers_length]
  rw [hback, hstab, hhang]

/-- Claim C1: for every height grid of size W×H with W,H ≥ 2 and every
configuration, `generate` returns a buffer whose length is a positive
multiple of 3 (triangle count = length/3 integral), the triangle count is
at least `2·(W−1)·(H−1)`, and every generation stage (lithophane surface,
backside, frame, stabilizers, hangers) appends a multiple of 3 vertices. -/
theorem generate_buffer_divisibility (c : MeshConfig) (img : Image)
    (hW : 2 ≤ img.width) (hH : 2 ≤ img.height) :
    3 ∣ (generate c img).length ∧ 0 < (generate c img).length ∧
      2 * (img.width - 1) * (img.height - 1) ≤ (generate c img).length / 3 ∧
      3 ∣ (generateLithophane c img).length ∧
      3 ∣ (generateBackside c img).length ∧
      3 ∣ (generateFrame c c.width (totalHeight c img)).length ∧
      3 ∣ (generateStabilizers c c.width (totalHeight c img)).length ∧
      3 ∣ (generateHangers c c.width (totalHeight c img)).length := by
  obtain ⟨w, hw⟩ : ∃ w, img.width = w + 2 := ⟨img.width - 2, by omega⟩
  obtain ⟨h, hh⟩ : ∃ h, img.height = h + 2 := ⟨img.height - 2, by omega⟩
  obtain ⟨s, hs⟩ : ∃ s, (if c.enableStabilizers = true ∧
      c.stabilizerThreshold < totalHeight c img then 192 else 0) = 3 * s := by
    split
    · exact ⟨64, rfl⟩
    · exact ⟨0, rfl⟩
  obtain ⟨t, ht⟩ : ∃ t, (if c.enableHangers = true then c.hangerCount * 48 else 0) =
      3 * t := by
    split
    · exact ⟨c.hangerCount * 16, by ring⟩
    · exact ⟨0, rfl⟩
  have hlen : (generate c img).length =
      3 * (40 + 6 * w + 6 * h + 2 * (h * w) + s + t) := by
    rw [generate_length_formula c img hH, hs, ht, hw, hh]
    simp only [Nat.add_sub_cancel]
    have : w + 2 - 1 = w + 1 := by omega
    rw [this]
    ring
  refine ⟨⟨_, hlen⟩, by omega, ?_, ?_, ⟨2, rfl⟩, ⟨28, rfl⟩, ⟨64, rfl⟩, ?_⟩
  · rw [hlen, Nat.mul_div_cancel_left _ (by norm_num), hw, hh]
    have h1 : w + 2 - 1 = w + 1 := by omega
    have h2 : h + 2 - 1 = h + 1 := by omega
    rw [h1, h2]
    nlinarith [Nat.zero_le s, Nat.zero_le t]
  · rw [generateLithophane_length c img hH, hw, hh]
    simp only [Nat.add_sub_cancel]
    have : w + 2 - 1 = w + 1 := by omega
    rw [this]
    exact ⟨10 + 6 * w + h * (4 + 2 * (w + 1)), by ring⟩
  · rw [generateHangers_length]
    exact ⟨c.hangerCount * 16, by ring⟩

/-- Witness for C1 at the default configuration and a concrete 2×2 grid. -/
theorem generate_buffer_divisibility_witness :
    3 ∣ (generate cfgDefault img22).length ∧ 0 < (generate cfgDefault img22).length ∧
      2 * (img22.width - 1) * (img22.height - 1) ≤ (generate cfgDefault img22).length / 3 ∧
      3 ∣ (generateLithophane cfgDefault img22).length ∧
      3 ∣ (generateBackside cfgDefault img22).length ∧
      3 ∣ (generateFrame cfgDefault cfgDefault.width (totalHeight cfgDefault img22)).length ∧
      3 ∣ (generateStabilizers cfgDefault cfgDefault.width (totalHeight cfgDefault img22)).length ∧
      3 ∣ (generateHangers cfgDefault cfgDefault.width (totalHeight cfgDefault img22)).length :=
  generate_buffer_divisibility cfgDefault img22 (by decide) (by decide)

/-! ### Surface vertex placement -/

lemma cast_pred (n : ℕ) (h : 1 ≤ n) : ((n : ℚ)) - 1 = ((n - 1 : ℕ) : ℚ) := by
  rw [Nat.cast_sub h]
  norm_num

lemma scaleVertex_formula (c : MeshConfig) (img : Image) (gx gy : ℕ) (a b d : ℚ)
    (ha : a = (gx : ℚ)) (hb : b = (gy : ℚ)) :
    scaleVertex c img a b d =
      ⟨(gx : ℚ) * ((c.width - 2 * c.frameBorder) / (img.width : ℚ)) + c.frameBorder,
       (gy : ℚ) * ((c.width - 2 * c.frameBorder) / (img.width : ℚ)) + c.frameBorder,
       d⟩ := by
  subst ha hb
  simp only [scaleVertex, widthFactor, Vec3.mk.injEq]
  refine ⟨by ring, by ring, trivial⟩

lemma surf_mem_lithophane (c : MeshConfig) (img : Image) {x y : ℕ}
    (hx : x < img.width - 1) (hy : y < img.height - 1) :
    scaleVertex c img x y (depthAt c img x y) ∈ generateLithophane c img := by
  rw [generateLithophane]
  refine List.mem_flatMap.2 ⟨y, List.mem_range.2 hy, ?_⟩
  rw [lithoRow]
  refine List.mem_append.2 (Or.inl (List.mem_append.2 (Or.inr ?_)))
  refine List.mem_flatMap.2 ⟨x, List.mem_range.2 hx, ?_⟩
  rw [lithoCell]
  refine List.mem_append.2 (Or.inr ?_)
  rw [surfTris]
  exact List.mem_cons_self _ _

/-- Claim C2: every vertex of the tessellated surface (relief plus edge
walls) lies at `(gx·widthFactor + frameBorder, gy·widthFactor + frameBorder, d)`
for grid coordinates `gx ≤ W−1`, `gy ≤ H−1` and some relief depth `d`, with
`widthFactor = (width − 2·frameBorder)/W`; in the exact-rational embedding
the equality is exact, hence well within the claim's 1e-4 mm tolerance. -/
theorem surface_vertex_mapping (c : MeshConfig) (img : Image)
    (hW : 2 ≤ img.width) (hH : 2 ≤ img.height) :
    ∀ v ∈ generateLithophane c img, ∃ (gx gy : ℕ) (d : ℚ),
      gx ≤ img.width - 1 ∧ gy ≤ img.height - 1 ∧
      v = ⟨(gx : ℚ) * ((c.width - 2 * c.frameBorder) / (img.width : ℚ)) + c.frameBorder,
           (gy : ℚ) * ((c.width - 2 * c.frameBorder) / (img.width : ℚ)) + c.frameBorder,
           d⟩ := by
  intro v hv
  rw [generateLithophane] at hv
  obtain ⟨y, hy, hv⟩ := List.mem_flatMap.1 hv
  rw [List.mem_range] at hy
  rw [lithoRow] at hv
  rcases List.mem_append.1 hv with hv | hv
  · rcases List.mem_append.1 hv with hv | hv
    · rw [leftWall] at hv
      simp only [List.mem_cons, List.not_mem_nil, or_false] at hv
      rcases hv with rfl | rfl | rfl | rfl | rfl | rfl
      · exact ⟨0, y, _, by omega, by omega,
          scaleVertex_formula c img 0 y _ _ _ (by push_cast; ring) rfl⟩
      · exact ⟨0, y, _, by omega, by omega,
          scaleVertex_formula c img 0 y _ _ _ (by push_cast; ring) rfl⟩
      · exact ⟨0, y + 1, _, by omega, by omega,
          scaleVertex_formula c img 0 (y + 1) _ _ _ (by push_cast; ring)
            (by push_cast; ring)⟩
      · exact ⟨0, y + 1, _, by omega, by omega,
          scaleVertex_formula c img 0 (y + 1) _ _ _ (by push_cast; ring)
            (by push_cast; ring)⟩
      · exact ⟨0, y + 1, _, by omega, by omega,
          scaleVertex_formula c img 0 (y + 1) _ _ _ (by push_cast; ring)
            (by push_cast; ring)⟩
      · exact ⟨0, y, _, by omega, by omega,
          scaleVertex_formula c img 0 y _ _ _ (by push_cast; ring) rfl⟩
    · obtain ⟨x, hx, hv⟩ := List.mem_flatMap.1 hv
      rw [List.mem_range] at hx
      rw [lithoCell] at hv
      rcases List.mem_append.1 hv with hv | hv
      · by_cases hy0 : y = 0
        · rw [if_pos hy0] at hv
          rcases List.mem_append.1 hv with hv | hv
          · rw [topClose] at hv
            simp only [List.mem_cons, List.not_mem_nil, or_false] at hv
            rcases hv with rfl | rfl | rfl | rfl | rfl | rfl
            · exact ⟨x + 1, 0, _, by omega, by omega,
                scaleVertex_formula c img (x + 1) 0 _ _ _ (by push_cast; ring)
                  (by push_cast; ring)⟩
            · exact ⟨x, 0, _, by omega, by omega,
                scaleVertex_formula c img x 0 _ _ _ rfl (by push_cast; ring)⟩
            · exact ⟨x, 0, _, by omega, by omega,
                scaleVertex_formula c img x 0 _ _ _ rfl (by push_cast; ring)⟩
            · exact ⟨x, 0, _, by omega, by omega,
                scaleVertex_formula c img x 0 _ _ _ rfl (by push_cast; ring)⟩
            · exact ⟨x + 1, 0, _, by omega, by omega,
                scaleVertex_formula c img (x + 1) 0 _ _ _ (by push_cast; ring)
                  (by push_cast; ring)⟩
            · exact ⟨x + 1, 0, _, by omega, by omega,
                scaleVertex_formula c img (x + 1) 0 _ _ _ (by push_cast; ring)
                  (by push_cast; ring)⟩
          · rw [bottomClose] at hv
            simp only [List.mem_cons, List.not_mem_nil, or_false] at hv
            rcases hv with rfl | rfl | rfl | rfl | rfl | rfl
            · exact ⟨x, img.height - 1, _, by omega, by omega,
                scaleVertex_formula c img x (img.height - 1) _ _ _ rfl
                  (cast_pred _ (by omega))⟩
            · exact ⟨x, img.height - 1, _, by omega, by omega,
                scaleVertex_formula c img x (img.height - 1) _ _ _ rfl
                  (cast_pred _ (by omega))⟩
            · exact ⟨x + 1, img.height - 1, _, by omega, by omega,
                scaleVertex_formula c img (x + 1) (img.height - 1) _ _ _
                  (by push_cast; ring) (cast_pred _ (by omega))⟩
            · exact ⟨x + 1, img.height - 1, _, by omega, by omega,
                scaleVertex_formula c img (x + 1) (img.height - 1) _ _ _
                  (by push_cast; ring) (cast_pred _ (by omega))⟩
            · exact ⟨x + 1, img.height - 1, _, by omega, by omega,
                scaleVertex_formula c img (x + 1) (img.height - 1) _ _ _
                  (by push_cast; ring) (cast_pred _ (by omega))⟩
            · exact ⟨x, img.height - 1, _, by omega, by omega,
                scaleVertex_formula c img x (img.height - 1) _ _ _ rfl
                  (cast_pred _ (by omega))⟩
        · rw [if_neg hy0] at hv
          exact absurd hv (List.not_mem_nil v)
      · rw [surfTris] at hv
        simp only [List.mem_cons, List.not_mem_nil, or_false] at hv
        rcases hv with rfl | rfl | rfl | rfl | rfl | rfl
        · exact ⟨x, y, _, by omega, by omega,
            scaleVertex_formula c img x y _ _ _ rfl rfl⟩
        · exact ⟨x + 1, y + 1, _, by omega, by omega,
            scaleVertex_formula c img (x + 1) (y + 1) _ _ _ (by push_cast; ring)
              (by push_cast; ring)⟩
        · exact ⟨x, y + 1, _, by omega, by omega,
            scaleVertex_formula c img x (y + 1) _ _ _ rfl (by push_cast; ring)⟩
        · exact ⟨x, y, _, by omega, by omega,
            scaleVertex_formula c img x y _ _ _ rfl rfl⟩
        · exact ⟨x + 1, y, _, by omega, by omega,
            scaleVertex_formula c img (x + 1) y _ _ _ (by push_cast; ring) rfl⟩
        · exact ⟨x + 1, y + 1, _, by omega, by omega,
            scaleVertex_formula c img (x + 1) (y + 1) _ _ _ (by push_cast; ring)
              (by push_cast; ring)⟩
  · rw [rightWall] at hv
    simp only [List.mem_cons, List.not_mem_nil, or_false] at hv
    rcases hv with rfl | rfl | rfl | rfl | rfl | rfl
    · exact ⟨img.width - 1, y + 1, _, by omega, by omega,
        scaleVertex_formula c img (img.width - 1) (y + 1) _ _ _
          (cast_pred _ (by omega)) (by push_cast; ring)⟩
    · exact ⟨img.width - 1, y, _, by omega, by omega,
        scaleVertex_formula c img (img.width - 1) y _ _ _
          (cast_pred _ (by omega)) rfl⟩
    · exact ⟨img.width - 1, y, _, by omega, by omega,
        scaleVertex_formula c img (img.width - 1) y _ _ _
          (cast_pred _ (by omega)) rfl⟩
    · exact ⟨img.width - 1, y, _, by omega, by omega,
        scaleVertex_formula c img (img.width - 1) y _ _ _
          (cast_pred _ (by omega)) rfl⟩
    · exact ⟨img.width - 1, y + 1, _, by omega, by omega,
        scaleVertex_formula c img (img.width - 1) (y + 1) _ _ _
          (cast_pred _ (by omega)) (by push_cast; ring)⟩
    · exact ⟨img.width - 1, y + 1, _, by omega, by omega,
        scaleVertex_formula c img (img.width - 1) (y + 1) _ _ _
          (cast_pred _ (by omega)) (by push_cast; ring)⟩

/-- Witness for C2 at the default configuration, a 2×2 grid, and the first
surface vertex. -/
theorem surface_vertex_mapping_witness :
    ∃ (gx gy : ℕ) (d : ℚ),
      gx ≤ img22.width - 1 ∧ gy ≤ img22.height - 1 ∧
      scaleVertex cfgDefault img22 0 0 (depthAt cfgDefault img22 0 0) =
        ⟨(gx : ℚ) * ((cfgDefault.width - 2 * cfgDefault.frameBorder) /
            (img22.width : ℚ)) + cfgDefault.frameBorder,
         (gy : ℚ) * ((cfgDefault.width - 2 * cfgDefault.frameBorder) /
            (img22.width : ℚ)) + cfgDefault.frameBorder,
         d⟩ :=
  surface_vertex_mapping cfgDefault img22 (by decide) (by decide) _
    (surf_mem_lithophane cfgDefault img22 (by decide) (by decide))

/-- Counterexample to claim C3 as stated: with the default configuration
and an all-white (sample 255) image, the tessellated relief depth at grid
cell (0,0) is `255 · depthFactor` (the thickest relief), not the claimed
`(255 − 255) · depthFactor = 0`; the vertex predicted by the claim does not
occur in the buffer, while the one produced by the direct mapping does. -/
theorem sample_inversion_counterexample :
    depthAt cfgDefault imgWhite 0 0 = 255 * depthFactor cfgDefault ∧
    scaleVertex cfgDefault imgWhite 0 0 (255 * depthFactor cfgDefault) ∈
      generateLithophane cfgDefault imgWhite ∧
    ¬ depthAt cfgDefault imgWhite 0 0 = (255 - 255) * depthFactor cfgDefault := by
  have hda : depthAt cfgDefault imgWhite 0 0 = 255 * depthFactor cfgDefault := by
    norm_num [depthAt, imgWhite]
  refine ⟨hda, ?_, ?_⟩
  · rw [show (255 : ℚ) * depthFactor cfgDefault = depthAt cfgDefault imgWhite 0 0
      from hda.symm]
    exact surf_mem_lithophane cfgDefault imgWhite (by decide) (by decide)
  · rw [hda]
    norm_num [depthFactor, cfgDefault]

/-- Claim C3 (amended): the tessellator maps a grid sample `s` to relief
depth `s · depthFactor` with `depthFactor = (totalThickness − minThickness)/255`
and performs no inversion itself (the brighter-is-thinner inversion is done
by the caller, which inverts the image before invoking `generate`): the
front-surface z for sample s is `s·depthFactor` above the `z = 0` shelf, so
sample 255 puts the front surface `totalThickness − minThickness` above it
(total material `totalThickness` from the back datum `−minThickness`) and
sample 0 leaves only `minThickness` of material. -/
theorem sample_depth_mapping (c : MeshConfig) (img : Image) (x y : ℕ)
    (hx : x < img.width - 1) (hy : y < img.height - 1) :
    scaleVertex c img x y ((img.pixel x (img.height - 1 - y) : ℚ) * depthFactor c)
      ∈ generateLithophane c img ∧
    (255 : ℚ) * depthFactor c = c.totalThickness - c.minThickness ∧
    (0 : ℚ) * depthFactor c = 0 := by
  refine ⟨surf_mem_lithophane c img hx hy, ?_, by ring⟩
  rw [depthFactor]
  ring

/-- Witness for the amended C3 at the default configuration and a 2×2
grid. -/
theorem sample_depth_mapping_witness :
    scaleVertex cfgDefault img22 0 0
        ((img22.pixel 0 (img22.height - 1 - 0) : ℚ) * depthFactor cfgDefault)
      ∈ generateLithophane cfgDefault img22 ∧
    (255 : ℚ) * depthFactor cfgDefault =
      cfgDefault.totalThickness - cfgDefault.minThickness ∧
    (0 : ℚ) * depthFactor cfgDefault = 0 :=
  sample_depth_mapping cfgDefault img22 0 0 (by decide) (by decide)

/-- Claim C10: the depth value used at tessellation row `y` is read from
image scanline `H − 1 − y` and scaled by `depthFactor` — the relief is
vertically flipped relative to the image's top-to-bottom row order, the
image's bottom scanline `H − 1` feeding tessellation row `y = 0` — and the
corresponding surface vertex is emitted into the buffer. -/
theorem scanline_vertical_flip (c : MeshConfig) (img : Image) (x y : ℕ)
    (hx : x < img.width - 1) (hy : y < img.height - 1) :
    depthAt c img x y = (img.pixel x (img.height - 1 - y) : ℚ) * depthFactor c ∧
    depthAt c img x 0 = (img.pixel x (img.height - 1) : ℚ) * depthFactor c ∧
    scaleVertex c img x y (depthAt c img x y) ∈ generateLithophane c img := by
  refine ⟨rfl, ?_, surf_mem_lithophane c img hx hy⟩
  rw [depthAt]
  norm_num

/-- Witness for C10 at the default configuration and a 2×2 grid. -/
theorem scanline_vertical_flip_witness :
    depthAt cfgDefault img22 0 0 =
      (img22.pixel 0 (img22.height - 1 - 0) : ℚ) * depthFactor cfgDefault ∧
    depthAt cfgDefault img22 0 0 =
      (img22.pixel 0 (img22.height - 1) : ℚ) * depthFactor cfgDefault ∧
    scaleVertex cfgDefault img22 0 0 (depthAt cfgDefault img22 0 0) ∈
      generateLithophane cfgDefault img22 :=
  scanline_vertical_flip cfgDefault img22 0 0 (by decide) (by decide)

/-! ### Stabilizer gating and frame size -/

lemma generate_length_split (c : MeshConfig) (img : Image) :
    (generate c img).length =
      (generateLithophane c img).length + 90 +
        (if c.enableStabilizers = true ∧ c.stabilizerThreshold < totalHeight c img
         then 192 else 0) +
        (if c.enableHangers = true then c.hangerCount * 48 else 0) := by
  rw [generate, List.length_append, List.length_append, List.length_append,
    List.length_append, generateFrame_length]
  have hback : (if c.enableSegmentation = true ∧ 1 < c.backsideSegments then
      generateSegmentedBackside c img else generateBackside c img).length = 6 := by
    split <;> rfl
  have hstab : (if c.enableStabilizers = true ∧
        c.stabilizerThreshold < totalHeight c img then
      generateStabilizers c c.width (totalHeight c img) else []).length =
      (if c.enableStabilizers = true ∧ c.stabilizerThreshold < totalHeight c img
       then 192 else 0) := by
    split <;> simp [generateStabilizers_length]
  have hhang : (if c.enableHangers = true then
      generateHangers c c.width (totalHeight c img) else []).length =
      (if c.enableHangers = true then c.hangerCount * 48 else 0) := by
    split <;> simp [generateHangers_length]
  rw [hback, hstab, hhang]

/-- Claim C4: stabilizer geometry is appended iff `enableStabilizers` is
set AND `totalHeight > stabilizerThreshold` (strict): when
`totalHeight ≤ stabilizerThreshold` (even with `enableStabilizers = true`)
or when stabilizers are disabled, the buffer length is exactly the
stabilizer-free length; when both conditions hold, exactly 192 extra
vertices (64 triangles) are appended, consisting of the two feet — one at
`x = 0` and one at `x = width − stabWidth` with
`stabWidth = min(frameBorder, 4 mm)`. -/
theorem stabilizer_gating (c : MeshConfig) (img : Image) :
    (totalHeight c img ≤ c.stabilizerThreshold →
      (generate c img).length =
        (generateLithophane c img).length + 90 +
          (if c.enableHangers = true then c.hangerCount * 48 else 0)) ∧
    (c.enableStabilizers = false →
      (generate c img).length =
        (generateLithophane c img).length + 90 +
          (if c.enableHangers = true then c.hangerCount * 48 else 0)) ∧
    (c.enableStabilizers = true → c.stabilizerThreshold < totalHeight c img →
      (generate c img).length =
        (generateLithophane c img).length + 90 +
          (if c.enableHangers = true then c.hangerCount * 48 else 0) + 192 ∧
      generateStabilizers c c.width (totalHeight c img) =
        addSingleStabilizer c 0
            (totalHeight c img * c.stabilizerHeightFactor)
            (totalHeight c img * c.stabilizerHeightFactor * (1 / 2))
            c.minThickness c.totalThickness
            (if c.permanentStabilizers then 1 else 0) ++
          addSingleStabilizer c (c.width - min c.frameBorder 4)
            (totalHeight c img * c.stabilizerHeightFactor)
            (totalHeight c img * c.stabilizerHeightFactor * (1 / 2))
            c.minThickness c.totalThickness
            (if c.permanentStabilizers then 1 else 0)) := by
  have hsplit := generate_length_split c img
  refine ⟨?_, ?_, ?_⟩
  · intro h
    rw [if_neg (fun hc => absurd hc.2 (not_lt.2 h))] at hsplit
    omega
  · intro h
    rw [if_neg (by simp [h])] at hsplit
    omega
  · intro h1 h2
    rw [if_pos ⟨h1, h2⟩] at hsplit
    exact ⟨by omega, rfl⟩

/-- Witness for C4 at the default configuration (stabilizers on,
`totalHeight = 200 > 60 = stabilizerThreshold`) on a 2×2 grid. -/
theorem stabilizer_gating_witness :
    (generate cfgDefault img22).length =
      (generateLithophane cfgDefault img22).length + 90 +
        (if cfgDefault.enableHangers = true then cfgDefault.hangerCount * 48 else 0) +
        192 ∧
    generateStabilizers cfgDefault cfgDefault.width (totalHeight cfgDefault img22) =
      addSingleStabilizer cfgDefault 0
          (totalHeight cfgDefault img22 * cfgDefault.stabilizerHeightFactor)
          (totalHeight cfgDefault img22 * cfgDefault.stabilizerHeightFactor * (1 / 2))
          cfgDefault.minThickness cfgDefault.totalThickness
          (if cfgDefault.permanentStabilizers then 1 else 0) ++
        addSingleStabilizer cfgDefault (cfgDefault.width - min cfgDefault.frameBorder 4)
          (totalHeight cfgDefault img22 * cfgDefault.stabilizerHeightFactor)
          (totalHeight cfgDefault img22 * cfgDefault.stabilizerHeightFactor * (1 / 2))
          cfgDefault.minThickness cfgDefault.totalThickness
          (if cfgDefault.permanentStabilizers then 1 else 0) :=
  (stabilizer_gating cfgDefault img22).2.2 rfl
    (by norm_num [totalHeight, widthFactor, cfgDefault, img22])

/-- Counterexample to claim C8 as stated: at the spec's concrete scenario
(4×4 grid, width 50, frameBorder 3) the frame stage appends 84 vertices,
i.e. 28 triangles — not 48 triangles. -/
theorem frame_triangle_count_counterexample :
    (generateFrame cfgScenario cfgScenario.width
        (totalHeight cfgScenario img44)).length = 3 * 28 ∧
    ¬ (generateFrame cfgScenario cfgScenario.width
        (totalHeight cfgScenario img44)).length = 3 * 48 := by
  refine ⟨rfl, ?_⟩
  rw [generateFrame_length]
  norm_num

/-- Claim C8 (amended): the Frame Builder appends a fixed number of
triangles: 28 triangles forming 14 quads (84 vertices, triangle count
84/3 = 28), independent of the grid and of every numeric parameter value;
at the concrete 4×4 / width-50 scenario the whole buffer is the
deterministic 216 vertices = 72 triangles (42 surface/wall + 2 backside +
28 frame triangles), usable as a golden regression value. -/
theorem frame_fixed_triangle_count (c c2 : MeshConfig) (w h w2 h2 : ℚ) :
    (generateFrame c w h).length = 3 * 28 ∧
    (generateFrame c w h).length / 3 = 28 ∧
    (generateFrame c w h).length = (generateFrame c2 w2 h2).length ∧
    (generate cfgScenario img44).length = 3 * 72 :=
  ⟨rfl, by rw [generateFrame_length], rfl, rfl⟩

/-! ### Binary STL layout -/

lemma bytesOf_append (fenc : ℚ → List ℕ) (l1 l2 : List StlCell) :
    bytesOf fenc (l1 ++ l2) = bytesOf fenc l1 ++ bytesOf fenc l2 :=
  List.flatMap_append l1 l2 _

lemma bytesOf_map_b8 {α : Type} (fenc : ℚ → List ℕ) (g : α → ℕ) :
    ∀ l : List α,
      bytesOf fenc (l.map fun a => StlCell.b8 (g a)) = l.map fun a => g a % 256 := by
  intro l
  induction l with
  | nil => rfl
  | cons a t ih =>
    rw [List.map_cons, bytesOf, List.flatMap_cons]
    rw [bytesOf] at ih
    rw [ih]
    rfl

lemma bytesOf_replicate_zero (fenc : ℚ → List ℕ) :
    ∀ n, bytesOf fenc (List.replicate n (StlCell.b8 0)) = List.replicate n 0 := by
  intro n
  induction n with
  | zero => rfl
  | succ m ih =>
    rw [List.replicate_succ, List.replicate_succ, bytesOf, List.flatMap_cons]
    rw [bytesOf] at ih
    rw [ih]
    rfl

lemma bytesOf_header (fenc : ℚ → List ℕ) :
    bytesOf fenc stlHeaderCells =
      "LithoMaker Export".data.map (fun ch => ch.toNat % 256) ++
        List.replicate 63 0 := by
  rw [stlHeaderCells, bytesOf_append, bytesOf_map_b8, bytesOf_replicate_zero]

lemma bytesOf_header_length (fenc : ℚ → List ℕ) :
    (bytesOf fenc stlHeaderCells).length = 80 := by
  rw [bytesOf_header, List.length_append, List.length_map, List.length_replicate]
  have : "LithoMaker Export".data.length = 17 := by decide
  rw [this]

lemma bytesOf_triCells_length (fenc : ℚ → List ℕ) (hf : ∀ q, (fenc q).length = 4) :
    ∀ mesh : List Vec3, mesh.length % 3 = 0 →
      (bytesOf fenc (stlTriCells mesh)).length = 50 * (mesh.length / 3)
  | [], _ => rfl
  | [_], h => by simp at h
  | [_, _], h => by simp at h
  | a :: b :: c :: rest, h => by
    have hr : rest.length % 3 = 0 := by
      simp only [List.length_cons] at h
      omega
    have ih := bytesOf_triCells_length fenc hf rest hr
    rw [stlTriCells, bytesOf_append, List.length_append, ih]
    simp only [bytesOf, List.flatMap_cons, List.flatMap_nil, List.length_append,
      List.length_cons, cellBytes, hf, List.length_nil]
    omega

lemma parse_triCells :
    ∀ mesh : List Vec3, mesh.length % 3 = 0 →
      parseStlTris (mesh.length / 3) (stlTriCells mesh) = some mesh
  | [], _ => rfl
  | [_], h => by simp at h
  | [_, _], h => by simp at h
  | a :: b :: c :: rest, h => by
    have hr : rest.length % 3 = 0 := by
      simp only [List.length_cons] at h
      omega
    have ih := parse_triCells rest hr
    have hq : (a :: b :: c :: rest).length / 3 = rest.length / 3 + 1 := by
      simp only [List.length_cons]
      omega
    rw [hq, stlTriCells]
    simp only [List.cons_append, List.nil_append]
    rw [parseStlTris, if_pos ⟨rfl, rfl, rfl, rfl⟩, ih]
    rfl

lemma stlHeaderCells_all_b8 :
    stlHeaderCells.all (fun cl => match cl with | .b8 _ => true | _ => false) = true := by
  refine List.all_eq_true.2 fun cl hcl => ?_
  rcases List.mem_append.1 hcl with h | h
  · obtain ⟨ch, _, rfl⟩ := List.mem_map.1 h
    rfl
  · rw [List.eq_of_mem_replicate h]

lemma stlHeaderCells_length : stlHeaderCells.length = 80 := by
  rw [stlHeaderCells, List.length_append, List.length_map, List.length_replicate]
  have : "LithoMaker Export".data.length = 17 := by decide
  rw [this]

/-- Claim C6: for every valid buffer of `n = length/3` triangles, the
binary STL stream is exactly `84 + 50·n` bytes — an 80-byte zero-padded
ASCII header, a little-endian `uint32` equal to `n`, then per triangle a
`(0,0,0)` float32 normal, the three buffer vertices in order, and a zero
`uint16` attribute count — and parsing the stream recovers exactly `n`
triangles whose vertices equal the source buffer (exactly in the rational
embedding, hence within 1e-4 mm). -/
theorem stl_binary_layout (mesh : List Vec3) (h3 : mesh.length % 3 = 0)
    (fenc : ℚ → List ℕ) (hf : ∀ q, (fenc q).length = 4) :
    (bytesOf fenc (stlBinaryCells mesh)).length = 84 + 50 * (mesh.length / 3) ∧
    (bytesOf fenc (stlBinaryCells mesh)).take 80 =
      "LithoMaker Export".data.map (fun ch => ch.toNat % 256) ++
        List.replicate 63 0 ∧
    ((bytesOf fenc (stlBinaryCells mesh)).drop 80).take 4 =
      [mesh.length / 3 % 256, mesh.length / 3 / 256 % 256,
       mesh.length / 3 / 65536 % 256, mesh.length / 3 / 16777216 % 256] ∧
    parseStlBinary (stlBinaryCells mesh) = some (mesh.length / 3, mesh) := by
  have hu : bytesOf fenc [StlCell.u32 (mesh.length / 3)] =
      cellBytes fenc (StlCell.u32 (mesh.length / 3)) := by
    simp [bytesOf]
  have hsplit : bytesOf fenc (stlBinaryCells mesh) =
      bytesOf fenc stlHeaderCells ++
        (cellBytes fenc (StlCell.u32 (mesh.length / 3)) ++
          bytesOf fenc (stlTriCells mesh)) := by
    rw [stlBinaryCells, bytesOf_append, bytesOf_append, hu, List.append_assoc]
  refine ⟨?_, ?_, ?_, ?_⟩
  · rw [hsplit, List.length_append, List.length_append, bytesOf_header_length,
      bytesOf_triCells_length fenc hf mesh h3]
    have : (cellBytes fenc (StlCell.u32 (mesh.length / 3))).length = 4 := rfl
    rw [this]
    omega
  · rw [hsplit, List.take_left' (bytesOf_header_length fenc), bytesOf_header]
  · rw [hsplit, List.drop_left' (bytesOf_header_length fenc),
      List.take_left' (show (cellBytes fenc (StlCell.u32 (mesh.length / 3))).length = 4
        from rfl)]
    rfl
  · have htake : (stlBinaryCells mesh).take 80 = stlHeaderCells := by
      rw [stlBinaryCells, List.append_assoc, List.take_left' stlHeaderCells_length]
    have hdrop : (stlBinaryCells mesh).drop 80 =
        StlCell.u32 (mesh.length / 3) :: stlTriCells mesh := by
      rw [stlBinaryCells, List.append_assoc, List.drop_left' stlHeaderCells_length,
        List.singleton_append]
    rw [parseStlBinary, htake, hdrop,
      if_pos ⟨stlHeaderCells_length, stlHeaderCells_all_b8⟩]
    show Option.map (fun vs => (mesh.length / 3, vs))
        (parseStlTris (mesh.length / 3) (stlTriCells mesh)) =
      some (mesh.length / 3, mesh)
    rw [parse_triCells mesh h3]
    rfl

/-- Witness for C6 at a concrete one-triangle buffer and a concrete
four-byte float32 encoder. -/
theorem stl_binary_layout_witness :
    (bytesOf fencZero (stlBinaryCells demoTri)).length =
      84 + 50 * (demoTri.length / 3) ∧
    (bytesOf fencZero (stlBinaryCells demoTri)).take 80 =
      "LithoMaker Export".data.map (fun ch => ch.toNat % 256) ++
        List.replicate 63 0 ∧
    ((bytesOf fencZero (stlBinaryCells demoTri)).drop 80).take 4 =
      [demoTri.length / 3 % 256, demoTri.length / 3 / 256 % 256,
       demoTri.length / 3 / 65536 % 256, demoTri.length / 3 / 16777216 % 256] ∧
    parseStlBinary (stlBinaryCells demoTri) = some (demoTri.length / 3, demoTri) :=
  stl_binary_layout demoTri rfl fencZero (fun _ => rfl)

/-! ### Export guards and the 3MF archiver step -/

/-- Claim C5: for every export format (binary STL, ASCII STL, OBJ, 3MF):
an empty buffer or a length not divisible by 3 yields `success = false`, a
non-empty error message, `bytesWritten = 0`, and no file written (for 3MF
not even the scratch directory is created, the guards run first);
otherwise each exporter writes its file and reports its size — for 3MF
contingent on the archiver finishing with exit code 0 and producing the
archive. -/
theorem export_guard (mesh : List Vec3) (zip : ZipOutcome) :
    ((mesh = [] ∨ ¬ mesh.length % 3 = 0) →
      ((stlBinaryExport mesh).1.success = false ∧
        ¬ (stlBinaryExport mesh).1.errorMessage = "" ∧
        (stlBinaryExport mesh).1.bytesWritten = 0 ∧
        (stlBinaryExport mesh).2 = none) ∧
      ((stlAsciiExport mesh).1.success = false ∧
        ¬ (stlAsciiExport mesh).1.errorMessage = "" ∧
        (stlAsciiExport mesh).1.bytesWritten = 0 ∧
        (stlAsciiExport mesh).2 = none) ∧
      ((objExport mesh).1.success = false ∧
        ¬ (objExport mesh).1.errorMessage = "" ∧
        (objExport mesh).1.bytesWritten = 0 ∧
        (objExport mesh).2 = none) ∧
      ((threeMfExportRun zip mesh).result.success = false ∧
        ¬ (threeMfExportRun zip mesh).result.errorMessage = "" ∧
        (threeMfExportRun zip mesh).result.bytesWritten = 0 ∧
        (threeMfExportRun zip mesh).file = none ∧
        (threeMfExportRun zip mesh).scratchCreated = false)) ∧
    (¬ mesh = [] → mesh.length % 3 = 0 →
      ((stlBinaryExport mesh).1.success = true ∧
        (stlBinaryExport mesh).1.bytesWritten = byteSize (stlBinaryCells mesh) ∧
        (stlBinaryExport mesh).2 = some (stlBinaryCells mesh)) ∧
      ((stlAsciiExport mesh).1.success = true ∧
        (stlAsciiExport mesh).2 = some ⟨triples mesh⟩) ∧
      ((objExport mesh).1.success = true ∧
        (objExport mesh).2 = some (objContent mesh)) ∧
      (∀ code produced n, zip = ZipOutcome.finished code produced n →
        code = 0 → produced = true →
        (threeMfExportRun zip mesh).result.success = true ∧
        (threeMfExportRun zip mesh).result.bytesWritten = n ∧
        (threeMfExportRun zip mesh).file = some (threeMfModelOf mesh))) := by
  constructor
  · intro hbad
    have hsplit : mesh = [] ∨ (¬ mesh = [] ∧ ¬ mesh.length % 3 = 0) := by
      rcases hbad with rfl | h3
      · exact Or.inl rfl
      · by_cases he : mesh = []
        · exact Or.inl he
        · exact Or.inr ⟨he, h3⟩
    rcases hsplit with rfl | ⟨hne, h3⟩
    · have e4 : threeMfExportRun zip [] =
          ⟨⟨false, "Empty mesh", 0⟩, none, false, false⟩ := rfl
      rw [e4]
      exact ⟨⟨rfl, by decide, rfl, rfl⟩, ⟨rfl, by decide, rfl, rfl⟩,
        ⟨rfl, by decide, rfl, rfl⟩, rfl, by decide, rfl, rfl, rfl⟩
    · have e1 : stlBinaryExport mesh =
          (⟨false, "Invalid mesh: vertex count not divisible by 3", 0⟩, none) := by
        rw [stlBinaryExport, if_neg hne, if_pos h3]
      have e2 : stlAsciiExport mesh =
          (⟨false, "Invalid mesh: vertex count not divisible by 3", 0⟩, none) := by
        rw [stlAsciiExport, if_neg hne, if_pos h3]
      have e3 : objExport mesh =
          (⟨false, "Invalid mesh: vertex count not divisible by 3", 0⟩, none) := by
        rw [objExport, if_neg hne, if_pos h3]
      have e4 : threeMfExportRun zip mesh =
          ⟨⟨false, "Invalid mesh: vertex count not divisible by 3", 0⟩,
            none, false, false⟩ := by
        rw [threeMfExportRun, if_neg hne, if_pos h3]
      rw [e1, e2, e3, e4]
      exact ⟨⟨rfl, by decide, rfl, rfl⟩, ⟨rfl, by decide, rfl, rfl⟩,
        ⟨rfl, by decide, rfl, rfl⟩, rfl, by decide, rfl, rfl, rfl⟩
  · intro hne h3
    have e1 : stlBinaryExport mesh =
        (⟨true, "", byteSize (stlBinaryCells mesh)⟩, some (stlBinaryCells mesh)) := by
      rw [stlBinaryExport, if_neg hne, if_neg (fun hq => hq h3)]
    have e2 : stlAsciiExport mesh =
        (⟨true, "", 2 + 7 * (mesh.length / 3)⟩, some ⟨triples mesh⟩) := by
      rw [stlAsciiExport, if_neg hne, if_neg (fun hq => hq h3)]
    have e3 : objExport mesh =
        (⟨true, "",
           7 + (objContent mesh).verts.length + (objContent mesh).faces.length⟩,
         some (objContent mesh)) := by
      rw [objExport, if_neg hne, if_neg (fun hq => hq h3)]
    refine ⟨by rw [e1]; exact ⟨rfl, rfl, rfl⟩, by rw [e2]; exact ⟨rfl, rfl⟩,
      by rw [e3]; exact ⟨rfl, rfl⟩, ?_⟩
    rintro code produced n rfl rfl rfl
    have e4 : threeMfExportRun (ZipOutcome.finished 0 true n) mesh =
        ⟨⟨true, "", n⟩, some (threeMfModelOf mesh), true, true⟩ := by
      rw [threeMfExportRun, if_neg hne, if_neg (fun hq => hq h3),
        if_pos (show zipExitCode (ZipOutcome.finished 0 true n) = 0 from rfl)]
      rfl
    rw [e4]
    exact ⟨rfl, rfl, rfl⟩

/-- Witness for C5: an empty buffer fails on every exporter and a valid
one-triangle buffer succeeds. -/
theorem export_guard_witness :
    (stlBinaryExport []).1.success = false ∧
    (stlBinaryExport []).2 = none ∧
    (objExport demoTri).1.success = true ∧
    (threeMfExportRun (ZipOutcome.finished 0 true 42) demoTri).result.success =
      true :=
  ⟨((export_guard [] ZipOutcome.failedToStart).1 (Or.inl rfl)).1.1,
   ((export_guard [] ZipOutcome.failedToStart).1 (Or.inl rfl)).1.2.2.2,
   ((export_guard demoTri ZipOutcome.failedToStart).2 (by decide) rfl).2.2.1.1,
   (((export_guard demoTri (ZipOutcome.finished 0 true 42)).2 (by decide) rfl).2.2.2
      0 true 42 rfl rfl rfl).1⟩

/-- Claim C9 evidence: with a valid buffer, an archiver that could not be
started (missing binary) or that exceeded the 30-second wait leaves
`QProcess::exitCode()` at 0, so the code reports `success = true` with
`bytesWritten = 0` and no `.3mf` file — contradicting the claim that such
packaging failures are surfaced as `success = false`.  Only a finished
archiver with non-zero exit is reported as a failure.  The scratch
directory is removed on all of these paths, as the claim states. -/
theorem threemf_archiver_failure_behavior :
    (threeMfExportRun ZipOutcome.failedToStart demoTri).result.success = true ∧
    (threeMfExportRun ZipOutcome.failedToStart demoTri).result.bytesWritten = 0 ∧
    (threeMfExportRun ZipOutcome.failedToStart demoTri).file = none ∧
    (threeMfExportRun ZipOutcome.timedOut demoTri).result.success = true ∧
    (threeMfExportRun (ZipOutcome.finished 1 false 0) demoTri).result.success =
      false ∧
    ¬ (threeMfExportRun (ZipOutcome.finished 1 false 0)
        demoTri).result.errorMessage = "" ∧
    (threeMfExportRun ZipOutcome.failedToStart demoTri).scratchRemoved = true ∧
    (threeMfExportRun ZipOutcome.timedOut demoTri).scratchRemoved = true ∧
    (threeMfExportRun (ZipOutcome.finished 1 false 0) demoTri).scratchRemoved =
      true := by
  decide

/-! ### Vertex deduplication -/

lemma findKey_some :
    ∀ {l : List Vec3} {k : (Bool × ℤ) × (Bool × ℤ) × (Bool × ℤ)} {j : ℕ},
      findKey k l = some j →
      ∃ u, l[j]? = some u ∧ key6 u = k := by
  intro l
  induction l with
  | nil => intro k j h; simp [findKey] at h
  | cons u rest ih =>
    intro k j h
    rw [findKey] at h
    by_cases hk : key6 u = k
    · rw [if_pos hk] at h
      cases h
      exact ⟨u, List.getElem?_cons_zero, hk⟩
    · rw [if_neg hk] at h
      cases hfr : findKey k rest with
      | none => rw [hfr] at h; simp at h
      | some j0 =>
        rw [hfr] at h
        simp only [Option.map_some'] at h
        cases h
        obtain ⟨u0, hu0, hku⟩ := ih hfr
        exact ⟨u0, by rw [List.getElem?_cons_succ]; exact hu0, hku⟩

lemma findKey_none :
    ∀ {l : List Vec3} {k : (Bool × ℤ) × (Bool × ℤ) × (Bool × ℤ)},
      findKey k l = none →
      ∀ u ∈ l, ¬ key6 u = k := by
  intro l
  induction l with
  | nil => intro k _ u hu; simp at hu
  | cons v rest ih =>
    intro k h u hu
    rw [findKey] at h
    by_cases hk : key6 v = k
    · rw [if_pos hk] at h; simp at h
    · rw [if_neg hk] at h
      rcases List.mem_cons.1 hu with rfl | hu2
      · exact hk
      · cases hfr : findKey k rest with
        | none => exact ih hfr u hu2
        | some j0 => rw [hfr] at h; simp at h

lemma dedupGo_spec (rest : List Vec3) :
    ∀ (uniq : List Vec3) (idxs : List ℕ),
      ∃ uext iext,
        dedupGo uniq idxs rest = (uniq ++ uext, idxs ++ iext) ∧
        iext.length = rest.length ∧
        uext.length ≤ rest.length ∧
        ((uniq.map key6).Nodup → ((uniq ++ uext).map key6).Nodup) ∧
        (∀ k, k ∈ (uniq ++ uext).map key6 ↔
          k ∈ uniq.map key6 ∨ k ∈ rest.map key6) ∧
        (∀ (i : ℕ) (v : Vec3), rest[i]? = some v → ∃ (n : ℕ) (u : Vec3), iext[i]? = some n ∧
          (uniq ++ uext)[n]? = some u ∧ key6 u = key6 v) := by
  induction rest with
  | nil =>
    intro uniq idxs
    refine ⟨[], [], by rw [dedupGo]; simp, rfl, by simp, fun h => by simpa,
      fun k => by simp, fun i v h => by simp at h⟩
  | cons v rest ih =>
    intro uniq idxs
    cases hf : findKey (key6 v) uniq with
    | some j =>
      obtain ⟨u1, hu1, hk1⟩ := findKey_some hf
      have hjlt : j < uniq.length := (List.getElem?_eq_some.1 hu1).1
      obtain ⟨uext, iext, heq, hlen, hle, hnod, hmem, hidx⟩ := ih uniq (idxs ++ [j])
      refine ⟨uext, j :: iext, ?_, by simp [hlen], ?_, hnod, ?_, ?_⟩
      · rw [dedupGo, hf]
        show dedupGo uniq (idxs ++ [j]) rest = (uniq ++ uext, idxs ++ j :: iext)
        rw [heq, List.append_assoc, List.singleton_append]
      · simp only [List.length_cons]
        omega
      · intro k
        have base := hmem k
        simp only [List.map_cons, List.mem_cons]
        constructor
        · intro hk
          rcases base.1 hk with h | h
          · exact Or.inl h
          · exact Or.inr (Or.inr h)
        · rintro (h | h | h)
          · exact base.2 (Or.inl h)
          · refine base.2 (Or.inl ?_)
            rw [h, ← hk1]
            exact List.mem_map_of_mem key6 (List.getElem?_mem hu1)
          · exact base.2 (Or.inr h)
      · intro i w hw
        rcases i with _ | i2
        · rw [List.getElem?_cons_zero] at hw
          injection hw with hw2
          subst hw2
          refine ⟨j, u1, List.getElem?_cons_zero, ?_, by rw [hk1]⟩
          rw [List.getElem?_append_left hjlt]
          exact hu1
        · rw [List.getElem?_cons_succ] at hw
          obtain ⟨n, u, hn, hg, hku⟩ := hidx i2 w hw
          exact ⟨n, u, by rw [List.getElem?_cons_succ]; exact hn, hg, hku⟩
    | none =>
      obtain ⟨uext2, iext2, heq, hlen, hle, hnod, hmem, hidx⟩ :=
        ih (uniq ++ [v]) (idxs ++ [uniq.length])
      have hass : (uniq ++ [v]) ++ uext2 = uniq ++ v :: uext2 := by
        rw [List.append_assoc, List.singleton_append]
      refine ⟨v :: uext2, uniq.length :: iext2, ?_, by simp [hlen], ?_, ?_, ?_, ?_⟩
      · rw [dedupGo, hf]
        show dedupGo (uniq ++ [v]) (idxs ++ [uniq.length]) rest =
          (uniq ++ v :: uext2, idxs ++ uniq.length :: iext2)
        rw [heq, hass, List.append_assoc, List.singleton_append]
      · simp only [List.length_cons]
        omega
      · intro hn
        rw [← hass]
        apply hnod
        rw [List.map_append, List.nodup_append]
        refine ⟨hn, by simp, ?_⟩
        intro a ha hb
        simp only [List.map_cons, List.map_nil, List.mem_singleton] at hb
        subst hb
        obtain ⟨u0, hu0, h0⟩ := List.mem_map.1 ha
        exact findKey_none hf u0 hu0 h0
      · intro k
        have base := hmem k
        rw [hass] at base
        simp only [List.map_append, List.mem_append, List.map_cons, List.mem_cons,
          List.map_nil, List.not_mem_nil, or_false] at base ⊢
        tauto
      · intro i w hw
        rcases i with _ | i2
        · rw [List.getElem?_cons_zero] at hw
          injection hw with hw2
          subst hw2
          refine ⟨uniq.length, v, List.getElem?_cons_zero, ?_, rfl⟩
          rw [List.getElem?_append_right (le_refl _), Nat.sub_self]
          exact List.getElem?_cons_zero
        · rw [List.getElem?_cons_succ] at hw
          obtain ⟨n, u, hn, hg, hku⟩ := hidx i2 w hw
          rw [hass] at hg
          exact ⟨n, u, by rw [List.getElem?_cons_succ]; exact hn, hg, hku⟩

lemma dup_toFinset_card_lt {α : Type} [DecidableEq α] :
    ∀ l : List α, (∃ (i j : ℕ) (a : α), i < j ∧ l[i]? = some a ∧ l[j]? = some a) →
      l.toFinset.card < l.length := by
  intro l
  induction l with
  | nil =>
    rintro ⟨i, j, a, hij, hi, hj⟩
    simp at hi
  | cons x t ih =>
    rintro ⟨i, j, a, hij, hi, hj⟩
    rcases i with _ | i2
    · rw [List.getElem?_cons_zero] at hi
      injection hi with hi2
      obtain ⟨j2, rfl⟩ : ∃ j2, j = j2 + 1 := ⟨j - 1, by omega⟩
      rw [List.getElem?_cons_succ] at hj
      rw [← hi2] at hj
      have hmem : x ∈ t := List.getElem?_mem hj
      rw [List.toFinset_cons, Finset.insert_eq_self.2 (List.mem_toFinset.2 hmem)]
      calc t.toFinset.card ≤ t.length := List.toFinset_card_le t
        _ < (x :: t).length := by simp
    · obtain ⟨j2, rfl⟩ : ∃ j2, j = j2 + 1 := ⟨j - 1, by omega⟩
      rw [List.getElem?_cons_succ] at hi hj
      have hlt := ih ⟨i2, j2, a, by omega, hi, hj⟩
      rw [List.toFinset_cons]
      calc (insert x t.toFinset).card ≤ t.toFinset.card + 1 :=
          Finset.card_insert_le x _
        _ < t.length + 1 := by omega
        _ = (x :: t).length := by simp

lemma dedup_length_card (mesh : List Vec3) :
    (dedup mesh).1.length = (mesh.map key6).toFinset.card := by
  obtain ⟨uext, iext, heq, hlen, hle, hnod, hmem, hidx⟩ := dedupGo_spec mesh [] []
  rw [List.nil_append, List.nil_append] at heq
  have hd : dedup mesh = (uext, iext) := by rw [dedup, heq]
  have hnodup : (uext.map key6).Nodup := hnod (by simp)
  have h1 : (uext.map key6).toFinset = (mesh.map key6).toFinset := by
    refine Finset.ext fun k => ?_
    rw [List.mem_toFinset, List.mem_toFinset]
    have := hmem k
    simpa using this
  rw [hd]
  calc uext.length = (uext.map key6).length := (List.length_map uext key6).symm
    _ = (uext.map key6).toFinset.card := (List.toFinset_card_of_nodup hnodup).symm
    _ = (mesh.map key6).toFinset.card := by rw [h1]

/-- Claim C7 (amended): the OBJ and 3MF exporters deduplicate vertices by
exact match on the 6-decimal fixed-point string key, which keeps the
minus sign of strictly negative coordinates (Qt's `'f',6` formatting
renders a coordinate in `(-5e-7, 0)` as `"-0.000000"`, distinct from
`"0.000000"`): every buffer vertex maps to an index of a unique vertex
with the same key, two buffer vertices with equal keys map to the same
index, a buffer containing two vertices sharing a key (e.g. coincident
triangles) yields a unique-vertex list strictly smaller than the buffer
(3×triangleCount), OBJ face indices are the 0-based dedup indices plus
one, and 3MF triangle indices are the 0-based indices. -/
theorem vertex_dedup (mesh : List Vec3) :
    (∀ (i : ℕ) (v : Vec3), mesh[i]? = some v → ∃ (n : ℕ) (u : Vec3),
      (dedup mesh).2[i]? = some n ∧
      (dedup mesh).1[n]? = some u ∧ key6 u = key6 v) ∧
    (∀ (i j : ℕ) (v w : Vec3), mesh[i]? = some v → mesh[j]? = some w → key6 v = key6 w →
      (dedup mesh).2[i]? = (dedup mesh).2[j]?) ∧
    ((∃ (i j : ℕ) (v w : Vec3), ¬ i = j ∧ mesh[i]? = some v ∧ mesh[j]? = some w ∧
        key6 v = key6 w) →
      (dedup mesh).1.length < mesh.length) ∧
    (objContent mesh).verts = (dedup mesh).1 ∧
    (objContent mesh).faces = triples ((dedup mesh).2.map (· + 1)) ∧
    (threeMfModelOf mesh).verts = (dedup mesh).1 ∧
    (threeMfModelOf mesh).tris = triples (dedup mesh).2 := by
  obtain ⟨uext, iext, heq, hlen, hle, hnod, hmem, hidx⟩ := dedupGo_spec mesh [] []
  rw [List.nil_append, List.nil_append] at heq
  have hd : dedup mesh = (uext, iext) := by rw [dedup, heq]
  have hnodup : (uext.map key6).Nodup := hnod (by simp)
  have hmem2 : ∀ k, k ∈ uext.map key6 ↔ k ∈ mesh.map key6 := by
    intro k
    have := hmem k
    simpa using this
  have hmain : ∀ (i : ℕ) (v : Vec3), mesh[i]? = some v → ∃ (n : ℕ) (u : Vec3),
      (dedup mesh).2[i]? = some n ∧
      (dedup mesh).1[n]? = some u ∧ key6 u = key6 v := by
    intro i v hv
    rw [hd]
    exact hidx i v hv
  refine ⟨hmain, ?_, ?_, rfl, rfl, rfl, rfl⟩
  · intro i j v w hi hj hk
    obtain ⟨n1, u1, hn1, hg1, hk1⟩ := hmain i v hi
    obtain ⟨n2, u2, hn2, hg2, hk2⟩ := hmain j w hj
    rw [hd] at hg1 hg2
    have hlt1 : n1 < (uext.map key6).length :=
      (List.length_map uext key6).symm ▸ (List.getElem?_eq_some.1 hg1).1
    have hmk1 : (uext.map key6)[n1]? = some (key6 u1) := by
      rw [List.getElem?_map, hg1, Option.map_some']
    have hmk2 : (uext.map key6)[n2]? = some (key6 u2) := by
      rw [List.getElem?_map, hg2, Option.map_some']
    have hn12 : n1 = n2 := by
      refine List.getElem?_inj hlt1 hnodup ?_
      rw [hmk1, hmk2, hk1, hk2, hk]
    rw [hn1, hn2, hn12]
  · rintro ⟨i, j, v, w, hij, hi, hj, hk⟩
    have hcard : uext.length = (mesh.map key6).toFinset.card := by
      have h1 : (uext.map key6).toFinset = (mesh.map key6).toFinset := by
        refine Finset.ext fun k => ?_
        rw [List.mem_toFinset, List.mem_toFinset]
        exact hmem2 k
      calc uext.length = (uext.map key6).length := (List.length_map uext key6).symm
        _ = (uext.map key6).toFinset.card :=
          (List.toFinset_card_of_nodup hnodup).symm
        _ = (mesh.map key6).toFinset.card := by rw [h1]
    have hdup : ∃ (i2 j2 : ℕ) (a : (Bool × ℤ) × (Bool × ℤ) × (Bool × ℤ)),
        i2 < j2 ∧ (mesh.map key6)[i2]? = some a ∧
        (mesh.map key6)[j2]? = some a := by
      have hmi : (mesh.map key6)[i]? = some (key6 v) := by
        rw [List.getElem?_map, hi, Option.map_some']
      have hmj : (mesh.map key6)[j]? = some (key6 w) := by
        rw [List.getElem?_map, hj, Option.map_some']
      rcases Nat.lt_or_ge i j with hlt | hge
      · exact ⟨i, j, key6 v, hlt, hmi, by rw [hmj, hk]⟩
      · have hlt2 : j < i := by omega
        exact ⟨j, i, key6 v, hlt2, by rw [hmj, hk], hmi⟩
    have := dup_toFinset_card_lt (mesh.map key6) hdup
    rw [hd]
    calc uext.length = (mesh.map key6).toFinset.card := hcard
      _ < (mesh.map key6).length := this
      _ = mesh.length := List.length_map mesh key6

/-- Counterexample to claim C7 as stated: in `demoSignedZero` the two
apex vertices agree to six decimal places (both x coordinates round to
magnitude 0.000000 and differ by only 2e-7), yet their `'f',6` string
keys are `"-0.000000"` and `"0.000000"`, so the dedup keeps both: the
emitted unique-vertex list has all 6 = 3·triangleCount entries, not
strictly fewer as the claim requires. -/
theorem vertex_dedup_counterexample :
    (fix6 (-1 / 10000000)).2 = 0 ∧ (fix6 (1 / 10000000)).2 = 0 ∧
    ¬ key6 ⟨-1 / 10000000, 0, 0⟩ = key6 ⟨1 / 10000000, 0, 0⟩ ∧
    demoSignedZero.length = 3 * 2 ∧
    (dedup demoSignedZero).1.length = 3 * 2 ∧
    ¬ (dedup demoSignedZero).1.length < 3 * 2 := by
  have hmap : demoSignedZero.map key6 =
      [((true, 0), (false, 0), (false, 0)),
       ((false, 1000000), (false, 0), (false, 0)),
       ((false, 0), (false, 1000000), (false, 0)),
       ((false, 0), (false, 0), (false, 0)),
       ((false, 2000000), (false, 0), (false, 0)),
       ((false, 0), (false, 2000000), (false, 0))] := by
    simp only [demoSignedZero, List.map_cons, List.map_nil]
    norm_num [key6, fix6]
  have hlen : (dedup demoSignedZero).1.length = 6 := by
    rw [dedup_length_card, hmap]
    decide
  refine ⟨by norm_num [fix6], by norm_num [fix6], by norm_num [key6, fix6],
    rfl, by rw [hlen], by rw [hlen]; omega⟩

/-- Witness for C7 at two coincident triangles: the deduplicated vertex
list is strictly shorter than the buffer, and the first buffer vertex maps
to a unique vertex with the same key. -/
theorem vertex_dedup_witness :
    (dedup demoDupTris).1.length < demoDupTris.length ∧
    (∃ (n : ℕ) (u : Vec3), (dedup demoDupTris).2[0]? = some n ∧
      (dedup demoDupTris).1[n]? = some u ∧ key6 u = key6 ⟨0, 0, 0⟩) :=
  ⟨(vertex_dedup demoDupTris).2.2.1 ⟨0, 3, ⟨0, 0, 0⟩, ⟨0, 0, 0⟩,
      by decide, rfl, rfl, rfl⟩,
   (vertex_dedup demoDupTris).1 0 ⟨0, 0, 0⟩ rfl⟩

end LithoMaker
